import Mathlib

/-!
Verification of the submission-analysis core of Autograder4Canvas
(`src/Programs/Academic_Dishonesty_Check_v1-3.py`).

The Python functions are shallowly embedded: Python `str` is Lean `String`,
Python floats are modelled as `ℚ` (all arithmetic in the analysed code is
exact on rationals except the square root inside the two coefficient-of-
variation checks, which is modelled with `Real.sqrt` plus a decidable
companion proved equivalent on the thresholds the program uses), Python
lists/sets are Lean `List`/`Finset`, and a `dict.get` of an optional field
is an `Option`.  Flag strings appended by the analyser are modelled as an
inductive `Flag` whose constructors carry the data interpolated into the
corresponding Python f-string.  The `details` dictionaries returned by the
checkers are not modelled: no analysed behaviour reads them back.
-/

namespace A4C

/-- Python `str.split()` with no separator: split on whitespace runs and
drop empty pieces. -/
def pySplit (s : String) : List String :=
  (s.split Char.isWhitespace).filter (fun w => w ≠ "")

/-- `count_words(text)`: `0` for falsy text, else `len(text.split())`. -/
def count_words (text : String) : Nat :=
  if text = "" then 0 else (pySplit text).length

/-- `calculate_text_similarity(text1, text2)`: 0 when either text is falsy;
1 when the lowercased, stripped texts coincide; otherwise the Jaccard ratio
of the whitespace-token sets. -/
def calculate_text_similarity (text1 text2 : String) : ℚ :=
  if text1 = "" ∨ text2 = "" then 0
  else if text1.toLower.trim = text2.toLower.trim then 1
  else if (pySplit text1.toLower.trim).toFinset = ∅ ∨
      (pySplit text2.toLower.trim).toFinset = ∅ then 0
  else if (pySplit text1.toLower.trim).toFinset ∪
      (pySplit text2.toLower.trim).toFinset = ∅ then 0
  else
    (((pySplit text1.toLower.trim).toFinset ∩
        (pySplit text2.toLower.trim).toFinset).card : ℚ) /
      (((pySplit text1.toLower.trim).toFinset ∪
        (pySplit text2.toLower.trim).toFinset).card : ℚ)

/-- Worker for Python `re.split` over a character-class run such as
`[.!?]+`: the piece being built is carried reversed in `acc`; a delimiter
closes the piece and the remainder of the delimiter run is skipped, so
consecutive delimiters yield one separator. -/
def splitRunsGo (isD : Char → Bool) (acc : List Char) :
    List Char → List (List Char)
  | [] => [acc.reverse]
  | c :: rest =>
    if isD c then acc.reverse :: splitRunsGo isD [] (rest.dropWhile isD)
    else splitRunsGo isD (c :: acc) rest
termination_by l => l.length
decreasing_by
  · exact Nat.lt_succ_of_le (List.dropWhile_sublist isD).length_le
  · exact Nat.lt_succ_self rest.length

/-- Python `re.split(r'[X]+', s)` for a character class `X`. -/
def pyRegexSplitRuns (isD : Char → Bool) (s : String) : List String :=
  (splitRunsGo isD [] s.data).map (fun cs => String.mk cs)

/-- The delimiter class of the sentence-splitting regex `[.!?]+`. -/
def isSentenceDelim (c : Char) : Bool :=
  c == '.' || c == '!' || c == '?'

/-- `re.split(r'[.!?]+', text)` as the analysed code uses it. -/
def sentenceSplit (text : String) : List String :=
  pyRegexSplitRuns isSentenceDelim text

/-- The sentence list built inside `check_repetitive_reasoning`:
`[s.strip().lower() for s in re.split(r'[.!?]+', text) if len(s.strip()) > 20]`. -/
def repetitiveSentences (text : String) : List String :=
  ((sentenceSplit text).filter (fun s => 20 < s.trim.length)).map
    (fun s => s.trim.toLower)

/-- The double loop of `check_repetitive_reasoning`: the number of index
pairs `i < j` with `calculate_text_similarity(sentences[i], sentences[j])`
above `0.7`. -/
def countSimilarPairs : List String → Nat
  | [] => 0
  | s :: rest =>
    rest.countP (fun t => decide ((0.7 : ℚ) < calculate_text_similarity s t))
      + countSimilarPairs rest

/-- `total_pairs = (n * (n - 1)) / 2` computed in `check_repetitive_reasoning`
(exact, as the product is even). -/
def pairTotal (n : Nat) : ℚ :=
  ((n * (n - 1) : ℕ) : ℚ) / 2

/-- `check_repetitive_reasoning(text)`. -/
def check_repetitive_reasoning (text : String) : Bool :=
  if text = "" then false
  else if (repetitiveSentences text).length < 5 then false
  else if (0 : ℚ) < pairTotal (repetitiveSentences text).length then
    decide ((0.2 : ℚ) <
      (countSimilarPairs (repetitiveSentences text) : ℚ) /
        pairTotal (repetitiveSentences text).length)
  else false

/-- The sentence list of `check_sentence_completeness`:
`[s.strip() for s in re.split(r'[.!?]+', text) if s.strip()]`. -/
def completenessSentences (text : String) : List String :=
  ((sentenceSplit text).filter (fun s => s.trim ≠ "")).map String.trim

/-- One sentence counts as complete when it has at least 8 whitespace
words and its first character is uppercase. -/
def isCompleteSentence (s : String) : Bool :=
  match s.data with
  | [] => false
  | c :: _ => decide (8 ≤ (pySplit s).length) && c.isUpper

/-- `check_sentence_completeness(text)`: the ratio of complete sentences. -/
def check_sentence_completeness (text : String) : ℚ :=
  if text = "" then 0
  else if completenessSentences text = [] then 0
  else ((completenessSentences text).countP isCompleteSentence : ℚ) /
    ((completenessSentences text).length : ℚ)

/-- `[p.strip() for p in text.split('\n\n') if p.strip()]`. -/
def pyParagraphs (text : String) : List String :=
  ((text.splitOn "\n\n").map String.trim).filter (fun p => p ≠ "")

/-- `lengths = [len(p.split()) for p in paragraphs]` in
`check_paragraph_uniformity`. -/
def paragraphLengths (text : String) : List Nat :=
  (pyParagraphs text).map (fun p => (pySplit p).length)

/-- `avg_length = sum(lengths) / len(lengths)`. -/
def avgParagraphLength (text : String) : ℚ :=
  ((paragraphLengths text).sum : ℚ) / ((paragraphLengths text).length : ℚ)

/-- `variance = sum((l - avg_length) ** 2 for l in lengths) / len(lengths)`. -/
def varianceParagraph (text : String) : ℚ :=
  ((paragraphLengths text).map
    (fun l => ((l : ℚ) - avgParagraphLength text) ^ 2)).sum /
    ((paragraphLengths text).length : ℚ)

open scoped Classical in
/-- `check_paragraph_uniformity(text)`: `1 - CV` when the coefficient of
variation `CV = stddev / mean` of the paragraph word counts is below 1,
else 0; 0 when fewer than 3 paragraphs or the text is empty.  The Python
`variance ** 0.5` is modelled as `Real.sqrt`. -/
noncomputable def check_paragraph_uniformity (text : String) : ℝ :=
  if text = "" then 0
  else if (pyParagraphs text).length < 3 then 0
  else if avgParagraphLength text = 0 then 0
  else if Real.sqrt (varianceParagraph text) / (avgParagraphLength text : ℝ) < 1
    then 1 - Real.sqrt (varianceParagraph text) / (avgParagraphLength text : ℝ)
  else 0

/-- Decidable companion of `check_paragraph_uniformity text > 0.8`, used
where the analyser compares the uniformity score against its fixed `0.8`
threshold; `uniformity_gt_four_fifths_iff` proves the equivalence. -/
def uniformityExceedsPoint8 (text : String) : Bool :=
  decide (text ≠ "") && decide (3 ≤ (pyParagraphs text).length) &&
    decide (0 < avgParagraphLength text) &&
    decide (25 * varianceParagraph text < avgParagraphLength text ^ 2)

/-- Python `str.count(sub)`: non-overlapping occurrences of `pat`,
scanned left to right (`len + 1` for the empty needle, as in Python). -/
def countOccsList (pat : List Char) : List Char → Nat
  | [] => if pat = [] then 1 else 0
  | c :: rest =>
    if h : pat = [] then 1 + countOccsList pat rest
    else if pat.isPrefixOf (c :: rest) then
      1 + countOccsList pat ((c :: rest).drop pat.length)
    else countOccsList pat rest
termination_by l => l.length
decreasing_by
  all_goals first
    | exact Nat.lt_succ_self _
    | (have hp : 0 < pat.length := List.length_pos.mpr (by assumption)
       simp only [List.length_drop, List.length_cons]
       omega)

/-- Python `str.count(sub)` on strings. -/
def countOccs (pat s : String) : Nat :=
  countOccsList pat.data s.data

/-- Python `sub in s` on strings. -/
def pyContains (s pat : String) : Bool :=
  decide (List.IsInfix pat.data s.data)

/-- The AI_TRANSITIONS phrase table. -/
def AI_TRANSITIONS : List String :=
  ["it is important to note", "it should be noted", "it is worth noting",
   "in conclusion", "to sum up", "in summary", "to summarize",
   "furthermore", "moreover", "additionally", "in addition",
   "this essay will explore", "this paper will examine", "this section will discuss",
   "as previously mentioned", "as stated above", "as discussed earlier",
   "on the one hand", "on the other hand", "conversely", "however",
   "firstly", "secondly", "thirdly", "lastly", "finally"]

/-- The HEDGE_PHRASES table. -/
def HEDGE_PHRASES : List String :=
  ["it can be argued that", "it could be said that", "one might argue",
   "it is possible that", "arguably", "presumably", "ostensibly",
   "it appears that", "it seems that", "tends to suggest"]

/-- The INFLATED_VOCAB table of (complex, simple) pairs. -/
def INFLATED_VOCAB : List (String × String) :=
  [("utilize", "use"), ("demonstrate", "show"), ("individuals", "people"),
   ("commence", "start"), ("terminate", "end"), ("endeavor", "try"),
   ("facilitate", "help"), ("implement", "do"), ("ascertain", "find out"),
   ("optimal", "best"), ("subsequent", "next"), ("prior to", "before"),
   ("in order to", "to"), ("due to the fact that", "because")]

/-- The GENERIC_PHRASES table. -/
def GENERIC_PHRASES : List String :=
  ["many things", "various aspects", "in today's society", "in today's world",
   "throughout history", "since the beginning of time", "it can be said",
   "some people believe", "it is believed that", "one could argue",
   "studies show", "research indicates", "experts say", "it has been shown",
   "this shows that", "this proves that", "overall", "basically",
   "a variety of", "a number of", "plays a crucial role", "of paramount importance"]

/-- The BALANCE_MARKERS table. -/
def BALANCE_MARKERS : List String :=
  ["both sides", "both perspectives", "different viewpoints", "various opinions",
   "while some argue", "others contend", "there are arguments for and against"]

/-- The EMOTIONAL_MARKERS table. -/
def EMOTIONAL_MARKERS : List String :=
  ["i feel", "i felt", "i was", "i struggled", "i realized", "i noticed",
   "confused", "frustrated", "excited", "surprised", "shocked", "angry",
   "it hurt", "i cried", "i laughed", "nervous", "scared", "proud"]

/-- `check_ai_transitions(text)`: summed `str.count` over the table on the
lowercased text. -/
def check_ai_transitions (text : String) : Nat :=
  if text = "" then 0
  else (AI_TRANSITIONS.map (fun p => countOccs p text.toLower)).sum

/-- `check_hedge_phrases(text)`. -/
def check_hedge_phrases (text : String) : Nat :=
  if text = "" then 0
  else (HEDGE_PHRASES.map (fun p => countOccs p text.toLower)).sum

/-- `check_inflated_vocabulary(text)`: the "complex (vs simple)" strings for
each complex word occurring in the lowercased text. -/
def check_inflated_vocabulary (text : String) : List String :=
  if text = "" then []
  else (INFLATED_VOCAB.filter (fun cs => pyContains text.toLower cs.1)).map
    (fun cs => cs.1 ++ " (vs " ++ cs.2 ++ ")")

/-- `check_generic_content(text)`. -/
def check_generic_content (text : String) : Nat :=
  if text = "" then 0
  else (GENERIC_PHRASES.map (fun p => countOccs p text.toLower)).sum

/-- `check_balance_markers(text)`. -/
def check_balance_markers (text : String) : Nat :=
  if text = "" then 0
  else (BALANCE_MARKERS.map (fun p => countOccs p text.toLower)).sum

/-- `check_emotional_markers(text)`. -/
def check_emotional_markers (text : String) : Nat :=
  if text = "" then 0
  else (EMOTIONAL_MARKERS.map (fun p => countOccs p text.toLower)).sum

/-- `check_copy_paste_indicators(text)`: the four substring-shaped regex
probes of the source (`'  +'`, `'\n{3,}'`, mixed tab/space,
`'\x00|\x0c|﻿'`) reduced to the equivalent containment tests. -/
def check_copy_paste_indicators (text : String) : List String :=
  if text = "" then []
  else
    (if pyContains text "  " then ["Multiple consecutive spaces"] else []) ++
    (if pyContains text "\n\n\n" then ["Excessive line breaks"] else []) ++
    (if pyContains text "\t" && pyContains text "    " then
      ["Mixed tab/space formatting"] else []) ++
    (if text.data.any (fun c => c == '\x00' || c == '\u000c' || c == '﻿')
     then ["Special formatting characters"] else [])

/-- Python regex `\w` restricted to ASCII (the analysed texts are ASCII). -/
def isWordChar (c : Char) : Bool :=
  c.isAlphanum || c == '_'

/-- The length of the leading whitespace run. -/
def wsRun (cs : List Char) : Nat :=
  (cs.takeWhile Char.isWhitespace).length

/-- The length of the leading `\w` run. -/
def wordRun (cs : List Char) : Nat :=
  (cs.takeWhile isWordChar).length

/-- Matcher for the regex tail `\s+\w+ed\b`: at least one whitespace, then
a maximal word run of length at least 3 ending in "ed" (the trailing `\b`
forces the `ed` to close the word run).  Returns the consumed length. -/
def matchWsWordEd (cs : List Char) : Option Nat :=
  let w := wsRun cs
  if w = 0 then none
  else
    let r := wordRun (cs.drop w)
    if 3 ≤ r && ((cs.drop w).take r).reverse.take 2 = ['d', 'e'] then
      some (w + r)
    else none

/-- Ordered alternation `(is|are|was|were|be|been|being)` of the first
passive-voice pattern, with regex backtracking into later alternatives when
the continuation after a verb fails. -/
def tryVerbsThenEd : List String → List Char → Option Nat
  | [], _ => none
  | v :: vs, cs =>
    if v.data.isPrefixOf cs then
      match matchWsWordEd (cs.drop v.length) with
      | some n => some (v.length + n)
      | none => tryVerbsThenEd vs cs
    else tryVerbsThenEd vs cs

/-- Attempt `\b(is|are|was|were|be|been|being)\s+\w+ed\b` at the head of
`cs` (the leading `\b` is checked by the scanner). -/
def attemptPassiveA (cs : List Char) : Option Nat :=
  tryVerbsThenEd ["is", "are", "was", "were", "be", "been", "being"] cs

/-- Matcher for `\s+be\s+\w+ed\b` after a modal verb. -/
def matchWsBeWsWordEd (cs : List Char) : Option Nat :=
  let w := wsRun cs
  if w = 0 then none
  else if ['b', 'e'].isPrefixOf (cs.drop w) then
    match matchWsWordEd ((cs.drop w).drop 2) with
    | some n => some (w + 2 + n)
    | none => none
  else none

/-- Ordered alternation of the second passive-voice pattern. -/
def tryModalsThenBeEd : List String → List Char → Option Nat
  | [], _ => none
  | v :: vs, cs =>
    if v.data.isPrefixOf cs then
      match matchWsBeWsWordEd (cs.drop v.length) with
      | some n => some (v.length + n)
      | none => tryModalsThenBeEd vs cs
    else tryModalsThenBeEd vs cs

/-- Attempt `\b(can|could|may|might|should|would)\s+be\s+\w+ed\b` at the
head of `cs`. -/
def attemptPassiveB (cs : List Char) : Option Nat :=
  tryModalsThenBeEd ["can", "could", "may", "might", "should", "would"] cs

/-- Non-overlapping left-to-right `re.findall` count for a pattern whose
match is attempted by `attempt`; when `needB` is set a word boundary must
precede the match (all scanned patterns start with a word character, so the
boundary holds iff the previous character is absent or not a word
character). -/
def scanCount (needB : Bool) (attempt : List Char → Option Nat) :
    Option Char → List Char → Nat
  | _, [] => 0
  | prev, c :: rest =>
    if !needB || (match prev with | none => true | some p => !(isWordChar p))
    then
      match attempt (c :: rest) with
      | some n =>
        if h : 0 < n then
          1 + scanCount needB attempt ((c :: rest).take n).getLast?
            ((c :: rest).drop n)
        else scanCount needB attempt (some c) rest
      | none => scanCount needB attempt (some c) rest
    else scanCount needB attempt (some c) rest
termination_by _ l => l.length
decreasing_by
  all_goals first
    | exact Nat.lt_succ_self _
    | (simp only [List.length_drop, List.length_cons]
       omega)

/-- `check_passive_voice(text)`: the summed `re.findall` counts of the two
PASSIVE_PATTERNS, case-insensitively (scanned on the lowercased text, which
preserves the word/whitespace classes). -/
def check_passive_voice (text : String) : Nat :=
  if text = "" then 0
  else scanCount true attemptPassiveA none text.toLower.data +
    scanCount true attemptPassiveB none text.toLower.data

/-- Trailing requirement of a literal personal-marker pattern. -/
inductive Trail
  | noReq
  | wordBoundary
  | oneWs
deriving DecidableEq

/-- Attempt a literal followed by the trailing requirement (`\b` or `\s`,
the latter consuming the whitespace character as the regex does). -/
def attemptLit (lit : List Char) (tr : Trail) (cs : List Char) : Option Nat :=
  if lit.isPrefixOf cs then
    match tr with
    | .noReq => some lit.length
    | .wordBoundary =>
      match cs.drop lit.length with
      | [] => some lit.length
      | d :: _ => if isWordChar d then none else some lit.length
    | .oneWs =>
      match cs.drop lit.length with
      | d :: _ => if d.isWhitespace then some (lit.length + 1) else none
      | [] => none
  else none

/-- `check_personal_markers(text)`: the summed `re.findall` counts of the
PERSONAL_MARKERS patterns over the lowercased text.  Each pattern is a
literal with an optional leading `\b` and a trailing `\b` or `\s`. -/
def check_personal_markers (text : String) : Nat :=
  if text = "" then 0
  else
    let tl := text.toLower.data
    scanCount true (attemptLit "i".data .oneWs) none tl +
    scanCount true (attemptLit "my".data .wordBoundary) none tl +
    scanCount true (attemptLit "me".data .wordBoundary) none tl +
    scanCount true (attemptLit "mine".data .wordBoundary) none tl +
    scanCount true (attemptLit "we".data .wordBoundary) none tl +
    scanCount true (attemptLit "our".data .wordBoundary) none tl +
    scanCount true (attemptLit "us".data .wordBoundary) none tl +
    scanCount false (attemptLit "as a".data .wordBoundary) none tl +
    scanCount false (attemptLit "being a".data .wordBoundary) none tl +
    scanCount false (attemptLit "growing up".data .noReq) none tl

/-- The flags the analyser can append, one constructor per append site of
the source; each constructor carries the data interpolated into the
corresponding Python f-string (the CV flag carries the variance and mean
that determine the printed `cv`, since float formatting is not modelled). -/
inductive Flag
  | veryShortText (wordCount : Nat)
  | clichedTransitions (n : Nat)
  | excessiveHedging (n : Nat)
  | inflatedVocabulary (shown : List String)
  | genericContent (n : Nat)
  | overBalanced (n : Nat)
  | excessivePassiveVoice (pct : Int)
  | lacksPersonalLanguage
  | noEmotionalLanguage
  | suspiciouslyUniformParagraphs
  | repetitiveReasoning
  | copyPasteIndicators (inds : List String)
  | tooPolishedForNotes (pct : Int)
  | suspiciouslyPolished (pct : Int)
  | formulaicIntro
  | formulaicConclusion
  | fiveParagraphStructure
  | uniformParagraphLengths (variance avgWords : ℚ)
  | transitionHeavy
  | formulaicTopicSentences
  | aiTypicalHeadings (n : Nat)
  | numberedHeadings
  | proseNotNotes (indicators : Nat)
  | strongProseEvidence
  | vagueCitations (n : Nat)
  | roundYearCitations (r total : Nat)
  | commonSurnameCitations (n : Nat)
  | clusteredYearCitations (year : String) (count : Nat)
  | noReferencesSection
  | highlySimilar (name : String) (pct : Int)
  | smallFile (filename : String) (size : Nat)
  | genericFilename (filename : String)
  | urlNoDescription
  | criticalNoRevision
  | nearIdenticalDrafts
  | fewSentenceChanges
  | possibleAIRegeneration
  | finalDraftShorter
  | insufficientRevision
deriving DecidableEq

/-- ASCII `[A-Z]`. -/
def isAsciiUpper (c : Char) : Bool :=
  'A' ≤ c && c ≤ 'Z'

/-- ASCII `[a-z]`. -/
def isAsciiLower (c : Char) : Bool :=
  'a' ≤ c && c ≤ 'z'

/-- The paragraph list of `check_essay_organization`: blank-line split, or
single-newline split into pieces longer than 50 characters when that yields
fewer than two paragraphs. -/
def essayParagraphs (text : String) : List String :=
  if (pyParagraphs text).length < 2 then
    ((text.splitOn "\n").map String.trim).filter
      (fun p => p ≠ "" && decide (50 < p.length))
  else pyParagraphs text

/-- `word_counts = [len(p.split()) for p in paragraphs]` in
`check_essay_organization`. -/
def essayWordCounts (text : String) : List Nat :=
  (essayParagraphs text).map (fun p => (pySplit p).length)

/-- `avg_words` of check 4 of `check_essay_organization`. -/
def essayAvgWords (text : String) : ℚ :=
  ((essayWordCounts text).sum : ℚ) / ((essayWordCounts text).length : ℚ)

/-- `variance` of check 4 of `check_essay_organization`. -/
def essayVariance (text : String) : ℚ :=
  ((essayWordCounts text).map
    (fun w => ((w : ℚ) - essayAvgWords text) ^ 2)).sum /
    ((essayWordCounts text).length : ℚ)

open scoped Classical in
/-- `cv = std_dev / avg_words if avg_words > 0 else 0` of check 4, with
`Real.sqrt` for the Python `variance ** 0.5`. -/
noncomputable def essayCV (text : String) : ℝ :=
  if 0 < essayAvgWords text then
    Real.sqrt (essayVariance text) / (essayAvgWords text : ℝ)
  else 0

/-- Decidable companion of `essayCV text < 0.15`;
`essayCV_below_iff` proves the equivalence under the `avg_words > 30`
guard that encloses the comparison in the source. -/
def essayCVBelowPoint15 (text : String) : Bool :=
  decide (400 * essayVariance text < 9 * essayAvgWords text ^ 2)

/-- The intro regexes of check 1 of `check_essay_organization`, expanded
into the literal alternatives they match. -/
def INTRO_LITS : List String :=
  ["this essay will explore", "this essay will examine",
   "this essay will discuss", "this essay will analyze",
   "this essay will argue",
   "in this essay", "in this paper", "in this analysis", "in this discussion",
   "the purpose of this essay", "the purpose of this paper",
   "this paper aims to", "this essay aims to",
   "throughout this essay", "throughout this paper",
   "the following essay will", "the following paper will",
   "the following analysis will"]

/-- Literal-only conclusion regexes of check 2, expanded. -/
def CONCLUSION_LITS : List String :=
  ["all things considered", "all in all",
   "as this essay have shown", "as this essay have seen",
   "as this essay have demonstrated", "as this essay have discussed",
   "as we have shown", "as we have seen",
   "as we have demonstrated", "as we have discussed",
   "the foregoing discussion", "the foregoing analysis",
   "the foregoing examination",
   "the preceding discussion", "the preceding analysis",
   "the preceding examination",
   "the above discussion", "the above analysis", "the above examination"]

/-- Matcher at one position for a conclusion regex of the shape
`LIT,?\s*(ALT|…)`: one of `pres`, an optional comma, a whitespace run, then
one of `alts` (the alternatives never begin with a comma or whitespace, so
the greedy reading is exact). -/
def commaWsAltAt (pres alts : List String) (cs : List Char) : Bool :=
  pres.any (fun p =>
    p.data.isPrefixOf cs &&
    (let r1 := cs.drop p.length
     let r2 := match r1 with
       | ',' :: t => t
       | _ => r1
     alts.any (fun b => b.data.isPrefixOf (r2.dropWhile Char.isWhitespace))))

/-- `re.search` of a `LIT,?\s*(ALT|…)` conclusion regex. -/
def searchCommaWsAlt (pres alts : List String) (s : String) : Bool :=
  s.data.tails.any (commaWsAltAt pres alts)

/-- `re.search` of any pattern in check 2 of `check_essay_organization`
over the lowercased last paragraph. -/
def conclusionMatch (lastPara : String) : Bool :=
  CONCLUSION_LITS.any (fun l => pyContains lastPara l) ||
  searchCommaWsAlt ["in conclusion"] ["it is clear", "we can see", "this essay has"] lastPara ||
  searchCommaWsAlt ["to sum up", "to summarize", "to conclude"] ["the", "this", "it"] lastPara ||
  searchCommaWsAlt ["in summary", "in closing"] ["this", "the", "it"] lastPara

/-- The transition starters of check 5. -/
def TRANSITION_STARTERS : List String :=
  ["first", "second", "third", "additionally", "furthermore",
   "moreover", "however", "in addition", "another", "finally",
   "next", "then", "also", "similarly", "consequently"]

/-- `para.split('.')[0].lower()` of check 5. -/
def firstSentenceOf (para : String) : String :=
  ((para.splitOn ".").headD para).toLower

/-- `re.match(r'^[a-z]+ (is|are|was|were|has|have|can|should|must|will)', s)`:
a maximal leading lowercase run, a single space, then one of the verbs. -/
def topicSentencePat (s : List Char) : Bool :=
  let r := (s.takeWhile isAsciiLower).length
  decide (0 < r) &&
    (match s.drop r with
     | ' ' :: t =>
       ["is", "are", "was", "were", "has", "have", "can", "should",
        "must", "will"].any (fun v => v.data.isPrefixOf t)
     | _ => false)

/-- The body paragraphs `paragraphs[1:-1]` of check 5. -/
def essayMiddleParagraphs (text : String) : List String :=
  ((essayParagraphs text).drop 1).dropLast

/-- `check_essay_organization(text)`: the flags of its five checks in
source order (details dict not modelled). -/
def check_essay_organization (text : String) : List Flag :=
  if text = "" ∨ text.length < 200 then []
  else
    (if essayParagraphs text ≠ [] ∧ INTRO_LITS.any (fun l =>
        pyContains ((essayParagraphs text).headD "").toLower l) then
      [Flag.formulaicIntro] else []) ++
    (if 1 < (essayParagraphs text).length ∧
        conclusionMatch (((essayParagraphs text).getLastD "").toLower) then
      [Flag.formulaicConclusion] else []) ++
    (if (essayParagraphs text).length = 5 ∧
        (essayWordCounts text).getD 0 0 < (essayWordCounts text).getD 2 0 ∧
        (essayWordCounts text).getD 4 0 < (essayWordCounts text).getD 2 0 ∧
        (((essayWordCounts text).getD 1 0 : ℤ) -
          ((essayWordCounts text).getD 2 0 : ℤ)).natAbs < 30 ∧
        (((essayWordCounts text).getD 2 0 : ℤ) -
          ((essayWordCounts text).getD 3 0 : ℤ)).natAbs < 30 then
      [Flag.fiveParagraphStructure] else []) ++
    (if 3 ≤ (essayParagraphs text).length ∧ 30 < essayAvgWords text ∧
        essayCVBelowPoint15 text then
      [Flag.uniformParagraphLengths (essayVariance text) (essayAvgWords text)]
     else []) ++
    (if 3 ≤ (essayParagraphs text).length ∧
        0 < (essayParagraphs text).length - 2 ∧
        (3 : ℚ) / 5 < ((essayMiddleParagraphs text).countP (fun para =>
          TRANSITION_STARTERS.any (fun st => st.isPrefixOf (firstSentenceOf para))) : ℚ) /
          (((essayParagraphs text).length - 2 : ℕ) : ℚ) then
      [Flag.transitionHeavy] else []) ++
    (if 3 ≤ (essayParagraphs text).length ∧
        0 < (essayParagraphs text).length - 2 ∧
        (4 : ℚ) / 5 < ((essayMiddleParagraphs text).countP (fun para =>
          topicSentencePat (firstSentenceOf para).data) : ℚ) /
          (((essayParagraphs text).length - 2 : ℕ) : ℚ) then
      [Flag.formulaicTopicSentences] else [])

/-- `^#{1,3}\s+.+$` on a newline-free stripped line. -/
def isHeading1 (l : List Char) : Bool :=
  let r := (l.takeWhile (· == '#')).length
  decide (1 ≤ r) && decide (r ≤ 3) &&
    (match l.drop r with
     | c :: rest => c.isWhitespace && decide (rest ≠ [])
     | [] => false)

/-- `^[A-Z][^.!?]*:$`. -/
def isHeading2 (l : List Char) : Bool :=
  match l with
  | c :: rest =>
    isAsciiUpper c && decide (rest ≠ []) && decide (rest.getLast? = some ':') &&
      rest.dropLast.all (fun d => !(d == '.' || d == '!' || d == '?'))
  | [] => false

/-- `^\*\*[^*]+\*\*$`. -/
def isHeading3 (l : List Char) : Bool :=
  decide (5 ≤ l.length) && ['*', '*'].isPrefixOf l &&
    ['*', '*'].isPrefixOf l.reverse &&
    ((l.drop 2).dropLast.dropLast.all (fun d => !(d == '*')))

/-- `^[IVX]+\.\s+[A-Z]`. -/
def isHeading4 (l : List Char) : Bool :=
  let r := (l.takeWhile (fun c => c == 'I' || c == 'V' || c == 'X')).length
  decide (1 ≤ r) &&
    (match l.drop r with
     | '.' :: rest =>
       decide (1 ≤ wsRun rest) &&
         (match rest.drop (wsRun rest) with
          | c :: _ => isAsciiUpper c
          | [] => false)
     | _ => false)

/-- `^\d+\.\s+[A-Z][^.!?]{5,}$`. -/
def isHeading5 (l : List Char) : Bool :=
  let r := (l.takeWhile Char.isDigit).length
  decide (1 ≤ r) &&
    (match l.drop r with
     | '.' :: rest =>
       decide (1 ≤ wsRun rest) &&
         (match rest.drop (wsRun rest) with
          | c :: tail =>
            isAsciiUpper c && decide (5 ≤ tail.length) &&
              tail.all (fun d => !(d == '.' || d == '!' || d == '?'))
          | [] => false)
     | _ => false)

/-- `[A-Z][a-z]+` with a maximal lowercase run: the consumed length. -/
def titleWordLen (l : List Char) : Option Nat :=
  match l with
  | c :: rest =>
    if isAsciiUpper c then
      let r := (rest.takeWhile isAsciiLower).length
      if 1 ≤ r then some (1 + r) else none
    else none
  | [] => none

/-- The `(\s+[A-Z][a-z]+){1,5}$` tail of the Title Case Lines pattern:
consume whitespace-separated title words until the end of the line is
reached with between 1 and 5 of them. -/
def titleGroupsGo (count : Nat) (l : List Char) : Bool :=
  match l with
  | [] => decide (1 ≤ count) && decide (count ≤ 5)
  | c :: rest =>
    if 5 ≤ count then false
    else
      let w := wsRun (c :: rest)
      if h : w = 0 then false
      else
        match titleWordLen ((c :: rest).drop w) with
        | some n => titleGroupsGo (count + 1) ((c :: rest).drop (w + n))
        | none => false
termination_by l.length
decreasing_by
  simp only [List.length_drop, List.length_cons]
  omega

/-- `^[A-Z][a-z]+(\s+[A-Z][a-z]+){1,5}$`. -/
def isHeading6 (l : List Char) : Bool :=
  match titleWordLen l with
  | some n => titleGroupsGo 0 (l.drop n)
  | none => false

/-- The heading-pattern alternatives of `check_headings_structure`, in
source order. -/
def isHeadingLine (l : String) : Bool :=
  isHeading1 l.data || isHeading2 l.data || isHeading3 l.data ||
    isHeading4 l.data || isHeading5 l.data || isHeading6 l.data

/-- `headings_found`: the stripped non-blank lines matching a heading
pattern. -/
def headingLines (text : String) : List String :=
  ((text.splitOn "\n").map String.trim).filter
    (fun l => l ≠ "" && isHeadingLine l)

/-- `re.search(r'main\s*(body|points?|arguments?)', h)`. -/
def searchMainPat (cs : List Char) : Bool :=
  cs.tails.any (fun t =>
    "main".data.isPrefixOf t &&
      (let r := (t.drop 4).dropWhile Char.isWhitespace
       "body".data.isPrefixOf r || "point".data.isPrefixOf r ||
         "argument".data.isPrefixOf r))

/-- One heading counts as AI-typical when its lowercase form matches one
of the `ai_heading_patterns` (each reduced to the substring tests it is
equivalent to under `re.search`). -/
def aiStyleHeading (h : String) : Bool :=
  pyContains h.toLower "introduction" || pyContains h.toLower "background" ||
  pyContains h.toLower "overview" || searchMainPat h.toLower.data ||
  pyContains h.toLower "point" || pyContains h.toLower "finding" ||
  pyContains h.toLower "takeaway" ||
  pyContains h.toLower "analysis" || pyContains h.toLower "discussion" ||
  pyContains h.toLower "conclusion" || pyContains h.toLower "thought" ||
  pyContains h.toLower "summary"

/-- `re.match(r'^\d+\.?\s', h)`. -/
def numberedHeading (h : String) : Bool :=
  let l := h.data
  let r := (l.takeWhile Char.isDigit).length
  decide (1 ≤ r) &&
    (match l.drop r with
     | '.' :: d :: _ => d.isWhitespace
     | c :: _ => c.isWhitespace
     | [] => false)

/-- `check_headings_structure(text)`: flags only (details not modelled). -/
def check_headings_structure (text : String) : List Flag :=
  if text = "" then []
  else if 3 ≤ (headingLines text).length then
    (if 2 ≤ (headingLines text).countP aiStyleHeading then
      [Flag.aiTypicalHeadings ((headingLines text).countP aiStyleHeading)]
     else []) ++
    (if 3 ≤ (headingLines text).countP numberedHeading then
      [Flag.numberedHeadings] else [])
  else []

/-- The paragraph list of `check_paragraph_as_prose_in_notes`: blank-line
split, or stripped non-blank lines when that is empty. -/
def noteParagraphs (text : String) : List String :=
  if pyParagraphs text = [] then
    ((text.splitOn "\n").map String.trim).filter (fun p => p ≠ "")
  else pyParagraphs text

/-- `re.match` of the bullet patterns
`^[\-\*\•\◦\▪]\s|^\d+[\.\)]\s|^[a-z][\.\)]\s` on a stripped line. -/
def isBulletLine (l : List Char) : Bool :=
  (match l with
   | c :: d :: _ =>
     (c == '-' || c == '*' || c == '•' || c == '◦' || c == '▪') &&
       d.isWhitespace
   | _ => false) ||
  (let r := (l.takeWhile Char.isDigit).length
   decide (1 ≤ r) &&
     (match l.drop r with
      | c :: d :: _ => (c == '.' || c == ')') && d.isWhitespace
      | _ => false)) ||
  (match l with
   | a :: c :: d :: _ =>
     isAsciiLower a && (c == '.' || c == ')') && d.isWhitespace
   | _ => false)

/-- The transition words of indicator 3 of
`check_paragraph_as_prose_in_notes`. -/
def NOTE_TRANSITION_WORDS : List String :=
  ["however", "therefore", "furthermore", "additionally",
   "moreover", "consequently", "thus", "hence"]

/-- `prose_indicators` of `check_paragraph_as_prose_in_notes`: the number
of signals among long paragraphs, lack of bullets, connective transitions
and a high complete-sentence ratio. -/
def proseIndicators (text : String) : Nat :=
  (if 2 ≤ (noteParagraphs text).countP (fun p => decide (40 < (pySplit p).length))
   then 1 else 0) +
  (if 5 < (text.splitOn "\n").countP (fun l => l.trim ≠ "") ∧
      (((text.splitOn "\n").map String.trim).countP (fun l => isBulletLine l.data) : ℚ) /
        ((text.splitOn "\n").countP (fun l => l.trim ≠ "") : ℚ) < 1 / 5
   then 1 else 0) +
  (if 3 ≤ (NOTE_TRANSITION_WORDS.map (fun t => countOccs t text.toLower)).sum
   then 1 else 0) +
  (if completenessSentences text ≠ [] ∧
      (3 : ℚ) / 5 < ((completenessSentences text).countP isCompleteSentence : ℚ) /
        ((completenessSentences text).length : ℚ)
   then 1 else 0)

/-- `check_paragraph_as_prose_in_notes(text)`: flags only. -/
def check_paragraph_as_prose_in_notes (text : String) : List Flag :=
  if text = "" then []
  else
    (if 2 ≤ proseIndicators text then [Flag.proseNotNotes (proseIndicators text)]
     else []) ++
    (if 3 ≤ proseIndicators text then [Flag.strongProseEvidence] else [])

/-- `(?:\s+(?:&|and)\s+[A-Z][a-z]+)?`, the optional co-author group of the
APA name regex: the consumed length when the group matches (skipping the
group can never rescue a failed match, since the digits the pattern needs
next can only follow the group text). -/
def apaCoAuthor (l : List Char) : Option Nat :=
  let w := wsRun l
  if w = 0 then none
  else
    match l.drop w with
    | '&' :: t =>
      let w2 := wsRun t
      if w2 = 0 then none
      else
        match titleWordLen (t.drop w2) with
        | some n => some (w + 1 + w2 + n)
        | none => none
    | r =>
      if "and".data.isPrefixOf r then
        let t := r.drop 3
        let w2 := wsRun t
        if w2 = 0 then none
        else
          match titleWordLen (t.drop w2) with
          | some n => some (w + 3 + w2 + n)
          | none => none
      else none

/-- `(?:\s+et\s+al\.)?`, the optional et-al group. -/
def apaEtAl (l : List Char) : Option Nat :=
  let w := wsRun l
  if w = 0 then none
  else if ['e', 't'].isPrefixOf (l.drop w) then
    let t := (l.drop w).drop 2
    let w2 := wsRun t
    if w2 = 0 then none
    else if ['a', 'l', '.'].isPrefixOf (t.drop w2) then
      some (w + 2 + w2 + 3)
    else none
  else none

/-- The author group
`[A-Z][a-z]+(?:\s+(?:&|and)\s+[A-Z][a-z]+)?(?:\s+et\s+al\.)?`:
the consumed length. -/
def apaNameLen (cs : List Char) : Option Nat :=
  match titleWordLen cs with
  | none => none
  | some n0 =>
    let n1 := match apaCoAuthor (cs.drop n0) with
      | some a => n0 + a
      | none => n0
    match apaEtAl (cs.drop n1) with
    | some b => some (n1 + b)
    | none => some n1

/-- Attempt the first APA pattern
`\(NAME,?\s*(\d{4})\)` at the head of `cs`: on success the consumed
length with the author and year capture groups. -/
def apaPat1At (cs : List Char) : Option (Nat × List Char × List Char) :=
  match cs with
  | '(' :: rest =>
    match apaNameLen rest with
    | none => none
    | some n =>
      let r1 := rest.drop n
      let hasComma := match r1 with
        | ',' :: _ => true
        | _ => false
      let r2 := if hasComma then r1.drop 1 else r1
      let w := wsRun r2
      let r3 := r2.drop w
      if (r3.take 4).length = 4 && (r3.take 4).all Char.isDigit &&
          (match r3.drop 4 with
           | ')' :: _ => true
           | _ => false) then
        some (1 + n + (if hasComma then 1 else 0) + w + 5, rest.take n, r3.take 4)
      else none
  | _ => none

/-- Attempt the second APA pattern `NAME\s*\((\d{4})\)` at the head. -/
def apaPat2At (cs : List Char) : Option (Nat × List Char × List Char) :=
  match apaNameLen cs with
  | none => none
  | some n =>
    let w := wsRun (cs.drop n)
    match (cs.drop n).drop w with
    | '(' :: r =>
      if (r.take 4).length = 4 && (r.take 4).all Char.isDigit &&
          (match r.drop 4 with
           | ')' :: _ => true
           | _ => false) then
        some (n + w + 6, cs.take n, r.take 4)
      else none
    | _ => none

/-- `re.findall` for one of the APA patterns: scan left to right, emit the
capture groups of each non-overlapping match. -/
def findallAPA (pat : List Char → Option (Nat × List Char × List Char)) :
    List Char → List (List Char × List Char)
  | [] => []
  | c :: rest =>
    match pat (c :: rest) with
    | some (n, author, year) =>
      if h : 0 < n then
        (author, year) :: findallAPA pat ((c :: rest).drop n)
      else (author, year) :: findallAPA pat rest
    | none => findallAPA pat rest
termination_by l => l.length
decreasing_by
  all_goals first
    | exact Nat.lt_succ_self _
    | (simp only [List.length_drop, List.length_cons]
       omega)

/-- `author.split()[0].replace(",", "")`: the first whitespace token of the
author capture, with commas removed. -/
def citeSurname (author : String) : String :=
  match pySplit author with
  | w :: _ => String.mk (w.data.filter (fun c => !(c == ',')))
  | [] => ""

/-- `all_citations` of `check_bibliographic_markers`: the two APA pattern
findall results concatenated, each mapped to (first-author surname, year). -/
def extractAPACitations (text : String) : List (String × String) :=
  (findallAPA apaPat1At text.data ++ findallAPA apaPat2At text.data).map
    (fun p => (citeSurname (String.mk p.1), String.mk p.2))

/-- The `vague_citations` regexes, each expanded into the literal
alternatives it matches (the alternatives of one pattern share a prefix and
never overlap, so the summed `str.count`s equal the findall counts). -/
def VAGUE_CITATION_LITS : List String :=
  ["according to research", "according to studies", "according to experts",
   "according to scientists",
   "studies show", "studies suggest", "studies indicate", "studies have shown",
   "research shows", "research suggests", "research indicates",
   "research has shown",
   "experts say", "experts believe", "experts argue", "experts suggest",
   "it has been shown", "it has been proven", "it has been demonstrated",
   "it has been found"]

/-- `vague_count` over the lowercased text. -/
def vagueCitationCount (text : String) : Nat :=
  (VAGUE_CITATION_LITS.map (fun p => countOccs p text.toLower)).sum

/-- The common surnames of the generic-author check. -/
def COMMON_SURNAMES : List String :=
  ["smith", "johnson", "williams", "brown", "jones", "davis", "miller"]

/-- Occurrence count of each year among the citations, maximised:
`Counter(years).most_common(1)[0][1]`. -/
def maxYearCount (years : List String) : Nat :=
  (years.map (fun y => years.count y)).foldr max 0

/-- The distinct years in order of first occurrence (Python `Counter`
insertion order). -/
def firstOccurrences : List String → List String
  | [] => []
  | y :: rest => y :: firstOccurrences (rest.filter (fun z => z ≠ y))
termination_by l => l.length
decreasing_by
  exact Nat.lt_succ_of_le (rest.length_filter_le _)

/-- `Counter(years).most_common(1)[0][0]`: among the years of maximal
count, the first inserted. -/
def mostCommonYear (years : List String) : String :=
  ((firstOccurrences years).filter
    (fun y => years.count y = maxYearCount years)).headD ""

/-- Matcher at one position for
`(references|works?\s+cited|bibliography)`: the consumed length. -/
def refKeyLen (cs : List Char) : Option Nat :=
  if "references".data.isPrefixOf cs then some 10
  else if "work".data.isPrefixOf cs then
    match cs.drop 4 with
    | 's' :: t =>
      let w := wsRun t
      if 1 ≤ w && "cited".data.isPrefixOf (t.drop w) then some (5 + w + 5)
      else none
    | t =>
      let w := wsRun t
      if 1 ≤ w && "cited".data.isPrefixOf (t.drop w) then some (4 + w + 5)
      else none
  else if "bibliography".data.isPrefixOf cs then some 12
  else none

/-- The tail `\s*[\n:]` after a references keyword: some prefix of the
whitespace run ends at a newline, or a colon follows the full run. -/
def refTailAt (cs : List Char) : Bool :=
  match refKeyLen cs with
  | some n =>
    let rest := cs.drop n
    (rest.takeWhile Char.isWhitespace).contains '\n' ||
      (match rest.drop (wsRun rest) with
       | ':' :: _ => true
       | _ => false)
  | none => false

/-- `re.search(r'(references|works?\s+cited|bibliography)\s*[\n:]',
text_lower)`. -/
def hasReferencesSection (text : String) : Bool :=
  text.toLower.data.tails.any refTailAt

/-- `check_bibliographic_markers(text)` with citation verification off (its
default; the verification branch calls external web APIs and is outside
the model): the pattern-check flags in source order. -/
def check_bibliographic_markers (text : String) : List Flag :=
  if text = "" then []
  else
    (if 3 ≤ vagueCitationCount text then
      [Flag.vagueCitations (vagueCitationCount text)] else []) ++
    (if extractAPACitations text ≠ [] then
      (if 3 ≤ (extractAPACitations text).length ∧
          (1 : ℚ) / 2 < (((extractAPACitations text).countP
              (fun c => decide (c.2.data.getLast? = some '0'))) : ℚ) /
            ((extractAPACitations text).length : ℚ) then
        [Flag.roundYearCitations ((extractAPACitations text).countP
          (fun c => decide (c.2.data.getLast? = some '0')))
          (extractAPACitations text).length]
       else []) ++
      (if 2 ≤ (extractAPACitations text).countP
          (fun c => decide (c.1.toLower ∈ COMMON_SURNAMES)) then
        [Flag.commonSurnameCitations ((extractAPACitations text).countP
          (fun c => decide (c.1.toLower ∈ COMMON_SURNAMES)))]
       else []) ++
      (if 3 ≤ maxYearCount ((extractAPACitations text).map Prod.snd) ∧
          (2 : ℚ) / 5 < (maxYearCount ((extractAPACitations text).map Prod.snd) : ℚ) /
            ((extractAPACitations text).length : ℚ) then
        [Flag.clusteredYearCitations
          (mostCommonYear ((extractAPACitations text).map Prod.snd))
          (maxYearCount ((extractAPACitations text).map Prod.snd))]
       else [])
     else []) ++
    (if 3 ≤ (extractAPACitations text).length ∧ ¬hasReferencesSection text then
      [Flag.noReferencesSection] else [])

/-- One assignment profile: the three dict fields the analyser reads
(`checks_enabled`, `thresholds`, `invert_checks`); the presentational
fields (name, description, notes, …) are not modelled. -/
structure Profile where
  checks_enabled : List (String × Bool)
  thresholds : List (String × Int)
  invert_checks : List (String × Bool)

/-- The `standard` profile. -/
def standardProfile : Profile where
  checks_enabled :=
    [("ai_transitions", true), ("hedge_phrases", true),
     ("inflated_vocabulary", true), ("generic_phrases", true),
     ("balance_markers", true), ("passive_voice", true),
     ("personal_markers", true), ("emotional_markers", true),
     ("complete_sentences", true), ("copy_paste", true),
     ("cross_submission", true)]
  thresholds :=
    [("min_word_count", 50), ("ai_transition_count", 3),
     ("passive_voice_percent", 45), ("complete_sentence_percent", 80)]
  invert_checks := []

/-- ASSIGNMENT_PROFILES, keyed as in the source. -/
def ASSIGNMENT_PROFILES : List (String × Profile) :=
  [("notes_brainstorm",
    { checks_enabled :=
        [("ai_transitions", false), ("hedge_phrases", false),
         ("inflated_vocabulary", true), ("generic_phrases", false),
         ("balance_markers", false), ("passive_voice", false),
         ("personal_markers", false), ("emotional_markers", false),
         ("complete_sentences", true), ("paragraph_structure", true),
         ("copy_paste", true), ("cross_submission", true),
         ("essay_organization", true), ("headings_structure", true)]
      thresholds :=
        [("min_word_count", 20), ("ai_transition_count", 999),
         ("passive_voice_percent", 100), ("complete_sentence_percent", 50),
         ("paragraph_count_suspicious", 3)]
      invert_checks :=
        [("complete_sentences", true), ("paragraph_structure", true)] }),
   ("rough_draft",
    { checks_enabled :=
        [("ai_transitions", true), ("hedge_phrases", false),
         ("inflated_vocabulary", true), ("generic_phrases", true),
         ("balance_markers", false), ("passive_voice", false),
         ("personal_markers", false), ("emotional_markers", false),
         ("complete_sentences", false), ("copy_paste", true),
         ("cross_submission", true)]
      thresholds :=
        [("min_word_count", 30), ("ai_transition_count", 5),
         ("passive_voice_percent", 60), ("complete_sentence_percent", 90)]
      invert_checks := [] }),
   ("personal_reflection",
    { checks_enabled :=
        [("ai_transitions", true), ("hedge_phrases", true),
         ("inflated_vocabulary", true), ("generic_phrases", true),
         ("balance_markers", true), ("passive_voice", true),
         ("personal_markers", true), ("emotional_markers", true),
         ("complete_sentences", true), ("copy_paste", true),
         ("cross_submission", true)]
      thresholds :=
        [("min_word_count", 50), ("ai_transition_count", 3),
         ("passive_voice_percent", 40), ("complete_sentence_percent", 85)]
      invert_checks := [] }),
   ("discussion_post",
    { checks_enabled :=
        [("ai_transitions", true), ("hedge_phrases", true),
         ("inflated_vocabulary", true), ("generic_phrases", true),
         ("balance_markers", true), ("passive_voice", false),
         ("personal_markers", true), ("emotional_markers", true),
         ("complete_sentences", false), ("copy_paste", true),
         ("cross_submission", true)]
      thresholds :=
        [("min_word_count", 30), ("ai_transition_count", 2),
         ("passive_voice_percent", 50), ("complete_sentence_percent", 90)]
      invert_checks := [] }),
   ("analytical_essay",
    { checks_enabled :=
        [("ai_transitions", true), ("hedge_phrases", true),
         ("inflated_vocabulary", true), ("generic_phrases", true),
         ("balance_markers", true), ("passive_voice", true),
         ("personal_markers", false), ("emotional_markers", false),
         ("complete_sentences", true), ("copy_paste", true),
         ("cross_submission", true)]
      thresholds :=
        [("min_word_count", 50), ("ai_transition_count", 3),
         ("passive_voice_percent", 45), ("complete_sentence_percent", 80)]
      invert_checks := [] }),
   ("research_paper",
    { checks_enabled :=
        [("ai_transitions", true), ("hedge_phrases", true),
         ("inflated_vocabulary", true), ("generic_phrases", true),
         ("balance_markers", true), ("passive_voice", true),
         ("personal_markers", false), ("emotional_markers", false),
         ("complete_sentences", true), ("copy_paste", true),
         ("cross_submission", true)]
      thresholds :=
        [("min_word_count", 100), ("ai_transition_count", 4),
         ("passive_voice_percent", 55), ("complete_sentence_percent", 75)]
      invert_checks := [] }),
   ("creative_writing",
    { checks_enabled :=
        [("ai_transitions", false), ("hedge_phrases", false),
         ("inflated_vocabulary", true), ("generic_phrases", true),
         ("balance_markers", false), ("passive_voice", false),
         ("personal_markers", false), ("emotional_markers", true),
         ("complete_sentences", false), ("copy_paste", true),
         ("cross_submission", true)]
      thresholds :=
        [("min_word_count", 50), ("ai_transition_count", 999),
         ("passive_voice_percent", 100), ("complete_sentence_percent", 100)]
      invert_checks := [] }),
   ("standard", standardProfile)]

/-- `get_profile(key)`: falls back to the standard profile. -/
def get_profile (key : String) : Profile :=
  (ASSIGNMENT_PROFILES.lookup key).getD standardProfile

/-- `is_check_enabled(name)` for `CURRENT_PROFILE = cp` (fail-open). -/
def is_check_enabled (cp : Option String) (name : String) : Bool :=
  match cp with
  | none => true
  | some k => ((get_profile k).checks_enabled.lookup name).getD true

/-- The fixed default threshold table of `get_threshold`. -/
def defaultThresholds : List (String × Int) :=
  [("min_word_count", 50), ("ai_transition_count", 3),
   ("passive_voice_percent", 45), ("complete_sentence_percent", 80)]

/-- `get_threshold(name)` for `CURRENT_PROFILE = cp`. -/
def get_threshold (cp : Option String) (name : String) : Int :=
  match cp with
  | none => (defaultThresholds.lookup name).getD 50
  | some k => ((get_profile k).thresholds.lookup name).getD 50

/-- `profile.get("invert_checks", {})` where `profile` is
`get_profile(CURRENT_PROFILE) if CURRENT_PROFILE else {}`. -/
def invertChecksOf (cp : Option String) : List (String × Bool) :=
  match cp with
  | none => []
  | some k => (get_profile k).invert_checks

/-- One Canvas attachment record: `size` and `filename` as optional dict
fields (`.get("size", 0)`, `.get("filename", "unknown")`). -/
structure Attachment where
  size : Option Nat
  filename : Option String
deriving DecidableEq

/-- One submission record, with each `dict.get` field optional. -/
structure Submission where
  body : Option String
  user_id : Option Int
  user_name : Option String
  attachments : Option (List Attachment)
  url : Option String
deriving DecidableEq

/-- Python `int()` on a rational: truncation toward zero. -/
def pyInt (q : ℚ) : Int :=
  if 0 ≤ q then q.floor else q.ceil

/-- `DUPLICATE_SIMILARITY_THRESHOLD`. -/
def DUPLICATE_SIMILARITY_THRESHOLD : ℚ := 0.85

/-- `MIN_FILE_SIZE` (1 KB). -/
def MIN_FILE_SIZE : Nat := 1024

/-- `other_sub.get("user", {}).get("name", f"User {other_user_id}")`. -/
def subUserName (s : Submission) : String :=
  s.user_name.getD ("User " ++
    (match s.user_id with
     | some i => toString i
     | none => "None"))

/-- The cross-submission loop of `analyze_submission` (check 18): walk the
sibling pool, skip same-student entries and falsy bodies, and on the first
sibling whose similarity reaches `DUPLICATE_SIMILARITY_THRESHOLD` append
one flag and break. -/
def crossSubmissionFlags (body : String) (uid : Option Int) :
    List Submission → List Flag
  | [] => []
  | other :: rest =>
    if other.user_id = uid then crossSubmissionFlags body uid rest
    else if other.body.getD "" ≠ "" then
      if DUPLICATE_SIMILARITY_THRESHOLD ≤
          calculate_text_similarity body (other.body.getD "") then
        [Flag.highlySimilar (subUserName other)
          (pyInt (calculate_text_similarity body (other.body.getD "") * 100))]
      else crossSubmissionFlags body uid rest
    else crossSubmissionFlags body uid rest

/-- `^PRE\d*\..*$` on a lowercased filename (`.` does not match a newline
and `$` also matches just before one trailing newline, as in Python). -/
def dotStarEnd (tail : List Char) : Bool :=
  tail.all (fun c => !(c == '\n')) ||
    (decide (tail.getLast? = some '\n') &&
      tail.dropLast.all (fun c => !(c == '\n')))

/-- Matcher for the `^PRE\d*\..*$` generic-filename patterns. -/
def genericNameMatch (pre : List Char) (l : List Char) : Bool :=
  pre.isPrefixOf l &&
    (let rest := l.drop pre.length
     match rest.drop (rest.takeWhile Char.isDigit).length with
     | '.' :: tail => dotStarEnd tail
     | _ => false)

/-- `check_generic_filename(filename)`. -/
def check_generic_filename (filename : String) : Bool :=
  if filename = "" then false
  else
    genericNameMatch "untitled".data filename.toLower.data ||
    genericNameMatch "document".data filename.toLower.data ||
    genericNameMatch "assignment".data filename.toLower.data ||
    genericNameMatch "file".data filename.toLower.data ||
    genericNameMatch "download".data filename.toLower.data ||
    genericNameMatch "new file".data filename.toLower.data ||
    ("copy of ".data.isPrefixOf filename.toLower.data &&
      dotStarEnd (filename.toLower.data.drop 8))

/-- The attachment loop of `analyze_submission`: small-file and
generic-filename flags per file, in order. -/
def attachmentFlags (atts : List Attachment) : List Flag :=
  (atts.map (fun f =>
    (if 0 < f.size.getD 0 ∧ f.size.getD 0 < MIN_FILE_SIZE then
      [Flag.smallFile (f.filename.getD "unknown") (f.size.getD 0)] else []) ++
    (if check_generic_filename (f.filename.getD "unknown") then
      [Flag.genericFilename (f.filename.getD "unknown")] else []))).flatten

/-- The text-body checks of `analyze_submission` (checks 1–18), for a
truthy body, with the current profile `cp`. -/
def bodyFlags (cp : Option String) (body : String) (uid : Option Int)
    (pool : List Submission) : List Flag :=
  (if 0 < count_words body ∧
      (count_words body : ℤ) < get_threshold cp "min_word_count" then
    [Flag.veryShortText (count_words body)] else []) ++
  (if is_check_enabled cp "ai_transitions" ∧
      get_threshold cp "ai_transition_count" ≤ (check_ai_transitions body : ℤ) then
    [Flag.clichedTransitions (check_ai_transitions body)] else []) ++
  (if is_check_enabled cp "hedge_phrases" ∧ 2 ≤ check_hedge_phrases body then
    [Flag.excessiveHedging (check_hedge_phrases body)] else []) ++
  (if is_check_enabled cp "inflated_vocabulary" ∧
      3 ≤ (check_inflated_vocabulary body).length then
    [Flag.inflatedVocabulary ((check_inflated_vocabulary body).take 3)]
   else []) ++
  (if is_check_enabled cp "generic_phrases" ∧
      3 ≤ check_generic_content body then
    [Flag.genericContent (check_generic_content body)] else []) ++
  (if is_check_enabled cp "balance_markers" ∧
      2 ≤ check_balance_markers body then
    [Flag.overBalanced (check_balance_markers body)] else []) ++
  (if is_check_enabled cp "passive_voice" ∧
      5 < (sentenceSplit body).length ∧
      (get_threshold cp "passive_voice_percent" : ℚ) / 100 <
        (check_passive_voice body : ℚ) / ((sentenceSplit body).length : ℚ) then
    [Flag.excessivePassiveVoice (pyInt
      ((check_passive_voice body : ℚ) / ((sentenceSplit body).length : ℚ) * 100))]
   else []) ++
  (if is_check_enabled cp "personal_markers" ∧ 200 < count_words body ∧
      check_personal_markers body < 3 then
    [Flag.lacksPersonalLanguage] else []) ++
  (if is_check_enabled cp "emotional_markers" ∧ 200 < count_words body ∧
      check_emotional_markers body = 0 then
    [Flag.noEmotionalLanguage] else []) ++
  (if is_check_enabled cp "complete_sentences" ∧
      uniformityExceedsPoint8 body then
    [Flag.suspiciouslyUniformParagraphs] else []) ++
  (if check_repetitive_reasoning body then [Flag.repetitiveReasoning]
   else []) ++
  (if is_check_enabled cp "copy_paste" ∧
      check_copy_paste_indicators body ≠ [] then
    [Flag.copyPasteIndicators (check_copy_paste_indicators body)] else []) ++
  (if is_check_enabled cp "complete_sentences" then
    (if ((invertChecksOf cp).lookup "complete_sentences").getD false then
      (if (get_threshold cp "complete_sentence_percent" : ℚ) / 100 <
          check_sentence_completeness body ∧ 50 < count_words body then
        [Flag.tooPolishedForNotes (pyInt (check_sentence_completeness body * 100))]
       else [])
     else
      (if (get_threshold cp "complete_sentence_percent" : ℚ) / 100 <
          check_sentence_completeness body ∧ 100 < count_words body then
        [Flag.suspiciouslyPolished (pyInt (check_sentence_completeness body * 100))]
       else []))
   else []) ++
  (if is_check_enabled cp "essay_organization" then
    check_essay_organization body else []) ++
  (if is_check_enabled cp "headings_structure" then
    check_headings_structure body else []) ++
  (if is_check_enabled cp "paragraph_structure" ∧
      ((invertChecksOf cp).lookup "paragraph_structure").getD false then
    check_paragraph_as_prose_in_notes body else []) ++
  (if 300 < count_words body then check_bibliographic_markers body else []) ++
  (if is_check_enabled cp "cross_submission" then
    crossSubmissionFlags body uid pool else [])

/-- `analyze_submission(submission, all_submissions)` under profile `cp`:
body checks for a truthy body, then attachment checks, then the URL check. -/
def analyze_submission (cp : Option String) (sub : Submission)
    (pool : List Submission) : List Flag :=
  (if sub.body.getD "" ≠ "" then
    bodyFlags cp (sub.body.getD "") sub.user_id pool else []) ++
  (if sub.attachments.getD [] ≠ [] then
    attachmentFlags (sub.attachments.getD []) else []) ++
  (if sub.url.getD "" ≠ "" ∧ sub.body.getD "" = "" ∧
      sub.attachments.getD [] = [] then
    [Flag.urlNoDescription] else [])

/-- The result of `compare_drafts` (the `details` dict is not modelled:
nothing downstream reads it). -/
structure DraftComparison where
  flags : List Flag
  revision_score : Nat
deriving DecidableEq

/-- The sentence sets of `compare_drafts`:
`set(s.strip().lower() for s in re.split(r'[.!?]+', d) if s.strip())`. -/
def draftSentences (d : String) : Finset String :=
  (((sentenceSplit d).filter (fun s => s.trim ≠ "")).map
    (fun s => s.trim.toLower)).toFinset

/-- `change_ratio = (len(added) + len(removed)) / total_sentences` with the
`total > 0` guard. -/
def draftChangeRatio (d1 d2 : String) : ℚ :=
  if 0 < ((draftSentences d1) ∪ (draftSentences d2)).card then
    ((((draftSentences d2) \ (draftSentences d1)).card +
      ((draftSentences d1) \ (draftSentences d2)).card : ℕ) : ℚ) /
      (((draftSentences d1) ∪ (draftSentences d2)).card : ℚ)
  else 0

/-- The change-ratio contribution to the revision score (30/20/10/0). -/
def draftScoreChange (d1 d2 : String) : Nat :=
  if (0.3 : ℚ) ≤ draftChangeRatio d1 d2 then 30
  else if (0.15 : ℚ) ≤ draftChangeRatio d1 d2 then 20
  else if (0.05 : ℚ) ≤ draftChangeRatio d1 d2 then 10
  else 0

/-- `unique_new_words`: words of draft 2 absent from draft 1, longer than
4 characters. -/
def draftNewVocab (d1 d2 : String) : Nat :=
  (((pySplit d2).toFinset \ (pySplit d1).toFinset).filter
    (fun w => 4 < w.length)).card

/-- The new-vocabulary contribution to the revision score (20/10/0). -/
def draftScoreVocab (d1 d2 : String) : Nat :=
  if 20 ≤ draftNewVocab d1 d2 then 20
  else if 10 ≤ draftNewVocab d1 d2 then 10
  else 0

/-- `para_structure_sim` of the AI-regeneration probe.  (When both drafts
are whitespace-only this divides zero by zero, which raises in Python; the
model returns 0 there, and no verified claim depends on that input.) -/
def draftParaSim (d1 d2 : String) : ℚ :=
  (((pyParagraphs d1).zip (pyParagraphs d2)).countP
    (fun pq => decide ((((pySplit pq.1).length : ℤ) -
      ((pySplit pq.2).length : ℤ)).natAbs < 10)) : ℚ) /
    ((pyParagraphs d1).length : ℚ)

/-- The final `revision_score = min(score, 100)` of `compare_drafts` for
the non-early-return path. -/
def draftScore (d1 d2 : String) : Nat :=
  min (draftScoreChange d1 d2 +
    (if (pyParagraphs d1).length ≠ (pyParagraphs d2).length then 10 else 0) +
    draftScoreVocab d1 d2) 100

/-- `compare_drafts(draft1, draft2)`: flags and revision score. -/
def compare_drafts (draft1 draft2 : String) : DraftComparison :=
  if draft1 = "" ∨ draft2 = "" then ⟨[], 0⟩
  else if (0.98 : ℚ) ≤ calculate_text_similarity draft1 draft2 then
    ⟨[Flag.criticalNoRevision], 0⟩
  else
    ⟨(if (0.95 : ℚ) ≤ calculate_text_similarity draft1 draft2 then
        [Flag.nearIdenticalDrafts] else []) ++
     (if draftChangeRatio draft1 draft2 < (0.05 : ℚ) then
        [Flag.fewSentenceChanges] else []) ++
     (if calculate_text_similarity draft1 draft2 < (0.5 : ℚ) ∧
        (pyParagraphs draft1).length = (pyParagraphs draft2).length ∧
        (0.7 : ℚ) < draftParaSim draft1 draft2 then
        [Flag.possibleAIRegeneration] else []) ++
     (if ((pySplit draft2).length : ℚ) <
        ((pySplit draft1).length : ℚ) * (0.7 : ℚ) then
        [Flag.finalDraftShorter] else []) ++
     (if draftScore draft1 draft2 < 20 then [Flag.insufficientRevision]
      else []),
     draftScore draft1 draft2⟩

/-- One assignment record of the `all_data` map handed to
`check_cross_assignment_similarity`: the assignment name and the
`submission_texts` dict as an association list (a Python dict, so its keys
are distinct). -/
structure AssignmentData where
  name : String
  submission_texts : List (Int × String)
deriving DecidableEq

/-- The text `check_cross_assignment_similarity` keeps for a student in
one assignment: present iff the student submitted a truthy text of more
than 50 words there. -/
def qualifyingText (ad : AssignmentData) (uid : Int) : Option String :=
  (ad.submission_texts.lookup uid).bind
    (fun t => if t ≠ "" ∧ 50 < (pySplit t).length then some t else none)

/-- `student_submissions[uid]` as the (assignment id, text) list in
assignment order. -/
def student_subs (all_data : List (Nat × AssignmentData)) (uid : Int) :
    List (Nat × String) :=
  all_data.filterMap (fun p => (qualifyingText p.2 uid).map (fun t => (p.1, t)))

/-- All index pairs `i < j` of a list, as ordered element pairs. -/
def pairsOf {α : Type} : List α → List (α × α)
  | [] => []
  | x :: rest => (rest.map (fun y => (x, y))) ++ pairsOf rest

/-- Whether `uid` ends up as a key of the `self_plagiarism` dict built by
`check_cross_assignment_similarity`: the source inserts `uid` exactly when
its `similar_pairs` list (one entry per assignment pair with similarity at
least 0.7) is non-empty. -/
def hasSelfPlagiarism (all_data : List (Nat × AssignmentData)) (uid : Int) :
    Bool :=
  (pairsOf (student_subs all_data uid)).any
    (fun pp => decide ((0.7 : ℚ) ≤ calculate_text_similarity pp.1.2 pp.2.2))

/-- A numbering of the flag constructors, used to state which analyser
section can emit which flags. -/
def Flag.tag : Flag → Nat
  | .veryShortText _ => 0
  | .clichedTransitions _ => 1
  | .excessiveHedging _ => 2
  | .inflatedVocabulary _ => 3
  | .genericContent _ => 4
  | .overBalanced _ => 5
  | .excessivePassiveVoice _ => 6
  | .lacksPersonalLanguage => 7
  | .noEmotionalLanguage => 8
  | .suspiciouslyUniformParagraphs => 9
  | .repetitiveReasoning => 10
  | .copyPasteIndicators _ => 11
  | .tooPolishedForNotes _ => 12
  | .suspiciouslyPolished _ => 13
  | .formulaicIntro => 14
  | .formulaicConclusion => 15
  | .fiveParagraphStructure => 16
  | .uniformParagraphLengths _ _ => 17
  | .transitionHeavy => 18
  | .formulaicTopicSentences => 19
  | .aiTypicalHeadings _ => 20
  | .numberedHeadings => 21
  | .proseNotNotes _ => 22
  | .strongProseEvidence => 23
  | .vagueCitations _ => 24
  | .roundYearCitations _ _ => 25
  | .commonSurnameCitations _ => 26
  | .clusteredYearCitations _ _ => 27
  | .noReferencesSection => 28
  | .highlySimilar _ _ => 29
  | .smallFile _ _ => 30
  | .genericFilename _ => 31
  | .urlNoDescription => 32
  | .criticalNoRevision => 33
  | .nearIdenticalDrafts => 34
  | .fewSentenceChanges => 35
  | .possibleAIRegeneration => 36
  | .finalDraftShorter => 37
  | .insufficientRevision => 38

/-- Whether a flag is the cross-submission duplicate flag. -/
def Flag.isHighlySimilar : Flag → Bool
  | .highlySimilar _ _ => true
  | _ => false

theorem calculate_text_similarity_comm (a b : String) :
    calculate_text_similarity a b = calculate_text_similarity b a := by
  unfold calculate_text_similarity
  by_cases h1 : a = "" ∨ b = ""
  · rw [if_pos h1, if_pos (Or.symm h1)]
  · rw [if_neg h1, if_neg (show ¬(b = "" ∨ a = "") from fun h => h1 (Or.symm h))]
    by_cases h2 : a.toLower.trim = b.toLower.trim
    · rw [if_pos h2, if_pos h2.symm]
    · rw [if_neg h2,
        if_neg (show ¬b.toLower.trim = a.toLower.trim from fun h => h2 h.symm)]
      by_cases h3 : (pySplit a.toLower.trim).toFinset = ∅ ∨
          (pySplit b.toLower.trim).toFinset = ∅
      · rw [if_pos h3, if_pos (show (pySplit b.toLower.trim).toFinset = ∅ ∨
          (pySplit a.toLower.trim).toFinset = ∅ from Or.symm h3)]
      · rw [if_neg h3, if_neg (show ¬((pySplit b.toLower.trim).toFinset = ∅ ∨
          (pySplit a.toLower.trim).toFinset = ∅) from fun h => h3 (Or.symm h))]
        rw [Finset.union_comm, Finset.inter_comm]

theorem calculate_text_similarity_self (a : String) (h : a ≠ "") :
    calculate_text_similarity a a = 1 := by
  unfold calculate_text_similarity
  rw [if_neg (by simp [h]), if_pos rfl]

theorem calculate_text_similarity_empty_left (b : String) :
    calculate_text_similarity "" b = 0 := by
  unfold calculate_text_similarity
  rw [if_pos (Or.inl rfl)]

theorem calculate_text_similarity_nonneg (a b : String) :
    0 ≤ calculate_text_similarity a b := by
  unfold calculate_text_similarity
  split_ifs
  · exact le_refl 0
  · exact zero_le_one
  · exact le_refl 0
  · exact le_refl 0
  · exact div_nonneg (by positivity) (by positivity)

theorem calculate_text_similarity_le_one (a b : String) :
    calculate_text_similarity a b ≤ 1 := by
  unfold calculate_text_similarity
  split_ifs with h1 h2 h3 h4
  · exact zero_le_one
  · exact le_refl 1
  · exact zero_le_one
  · exact zero_le_one
  · rw [div_le_one]
    · exact_mod_cast Finset.card_le_card Finset.inter_subset_union
    · have hcard : ((pySplit a.toLower.trim).toFinset ∪
          (pySplit b.toLower.trim).toFinset).Nonempty :=
        Finset.nonempty_iff_ne_empty.mpr h4
      exact_mod_cast Finset.card_pos.mpr hcard

theorem avgParagraphLength_nonneg (text : String) :
    0 ≤ avgParagraphLength text := by
  unfold avgParagraphLength
  positivity

theorem varianceParagraph_nonneg (text : String) :
    0 ≤ varianceParagraph text := by
  unfold varianceParagraph
  apply div_nonneg _ (by positivity)
  apply List.sum_nonneg
  intro x hx
  obtain ⟨l, _, rfl⟩ := List.mem_map.mp hx
  positivity

/-- The square-root-free form of a CV threshold comparison:
`sqrt v / a < c ↔ v < c² a²` for nonnegative `v` and positive `a`, `c`. -/
theorem sqrt_div_lt_iff (v a c : ℚ) (ha : 0 < a) (hc : 0 < c) :
    Real.sqrt (v : ℚ) / (a : ℝ) < (c : ℝ) ↔ v < c ^ 2 * a ^ 2 := by
  have ha' : (0 : ℝ) < (a : ℝ) := by exact_mod_cast ha
  have hc' : (0 : ℝ) < (c : ℝ) := by exact_mod_cast hc
  rw [div_lt_iff₀ ha', Real.sqrt_lt' (by positivity)]
  rw [mul_pow]
  constructor
  · intro h
    exact_mod_cast h
  · intro h
    exact_mod_cast h

/-- The analyser's fixed `0.8` uniformity threshold, via the companion. -/
theorem uniformity_gt_four_fifths_iff (text : String) :
    (0.8 : ℝ) < check_paragraph_uniformity text ↔
      uniformityExceedsPoint8 text = true := by
  unfold check_paragraph_uniformity uniformityExceedsPoint8
  by_cases h1 : text = ""
  · rw [if_pos h1]
    constructor
    · intro h
      norm_num at h
    · intro h
      simp only [Bool.and_eq_true, decide_eq_true_eq] at h
      exact absurd h1 h.1.1.1
  by_cases h2 : (pyParagraphs text).length < 3
  · rw [if_neg h1, if_pos h2]
    constructor
    · intro h
      norm_num at h
    · intro h
      simp only [Bool.and_eq_true, decide_eq_true_eq] at h
      omega
  have h2' : 3 ≤ (pyParagraphs text).length := by omega
  by_cases h3 : avgParagraphLength text = 0
  · rw [if_neg h1, if_neg h2, if_pos h3]
    constructor
    · intro h
      norm_num at h
    · intro h
      simp only [Bool.and_eq_true, decide_eq_true_eq] at h
      exact absurd h3 (ne_of_gt h.1.2)
  have havg : 0 < avgParagraphLength text :=
    lt_of_le_of_ne (avgParagraphLength_nonneg text) (Ne.symm h3)
  rw [if_neg h1, if_neg h2, if_neg h3]
  have key := sqrt_div_lt_iff (varianceParagraph text)
    (avgParagraphLength text) (1/5) havg (by norm_num)
  by_cases h4 : Real.sqrt (varianceParagraph text) /
      (avgParagraphLength text : ℝ) < 1
  · rw [if_pos h4]
    constructor
    · intro h
      have hcv : Real.sqrt (varianceParagraph text) /
          (avgParagraphLength text : ℝ) < ((1/5 : ℚ) : ℝ) := by
        push_cast
        linarith
      have hv := key.mp hcv
      simp only [Bool.and_eq_true, decide_eq_true_eq]
      exact ⟨⟨⟨h1, h2'⟩, havg⟩, by nlinarith [hv]⟩
    · intro h
      simp only [Bool.and_eq_true, decide_eq_true_eq] at h
      have hv : varianceParagraph text < (1/5 : ℚ) ^ 2 *
          avgParagraphLength text ^ 2 := by nlinarith [h.2]
      have hcv := key.mpr hv
      push_cast at hcv
      linarith
  · rw [if_neg h4]
    constructor
    · intro h
      norm_num at h
    · intro h
      simp only [Bool.and_eq_true, decide_eq_true_eq] at h
      exfalso
      apply h4
      have hv : varianceParagraph text < (1/5 : ℚ) ^ 2 *
          avgParagraphLength text ^ 2 := by nlinarith [h.2]
      have hcv := key.mpr hv
      calc Real.sqrt (varianceParagraph text) / (avgParagraphLength text : ℝ)
          < ((1/5 : ℚ) : ℝ) := hcv
        _ < 1 := by norm_num

/-- C1: `calculate_text_similarity` is symmetric, equals `1.0` on any
non-empty text paired with itself, returns `0.0` whenever either input is
the empty string, and always lies in the interval `[0, 1]`. -/
theorem c1_similarity_invariant (a b : String) :
    calculate_text_similarity a b = calculate_text_similarity b a
    ∧ (a ≠ "" → calculate_text_similarity a a = 1)
    ∧ calculate_text_similarity "" b = 0
    ∧ calculate_text_similarity a "" = 0
    ∧ 0 ≤ calculate_text_similarity a b
    ∧ calculate_text_similarity a b ≤ 1 := by
  refine ⟨calculate_text_similarity_comm a b,
    fun h => calculate_text_similarity_self a h,
    calculate_text_similarity_empty_left b,
    ?_,
    calculate_text_similarity_nonneg a b,
    calculate_text_similarity_le_one a b⟩
  rw [calculate_text_similarity_comm]
  exact calculate_text_similarity_empty_left a

/-- Witness for C1 at concrete inputs: the reflexivity clause discharged at
the non-empty text "alpha beta", the rest evaluated on "alpha beta" and
"beta gamma". -/
theorem c1_similarity_invariant_witness :
    ("alpha beta" ≠ "" ∧ calculate_text_similarity "alpha beta" "alpha beta" = 1)
    ∧ calculate_text_similarity "alpha beta" "beta gamma" =
        calculate_text_similarity "beta gamma" "alpha beta" := by
  have h := c1_similarity_invariant "alpha beta" "beta gamma"
  exact ⟨⟨by decide, h.2.1 (by decide)⟩, h.1⟩

theorem mem_ite_either {c : Prop} [Decidable c] {X Y : List Flag} {f : Flag} :
    f ∈ (if c then X else Y) ↔ (c ∧ f ∈ X) ∨ (¬c ∧ f ∈ Y) := by
  split_ifs with h <;> simp [h]

theorem tag_of_mem_essayOrg {t : String} {f : Flag}
    (h : f ∈ check_essay_organization t) : 14 ≤ f.tag ∧ f.tag ≤ 19 := by
  unfold check_essay_organization at h
  split at h
  · simp at h
  · simp only [List.mem_append, mem_ite_either, List.mem_singleton,
      List.not_mem_nil, and_false, or_false] at h
    rcases h with
      ((((⟨_, rfl⟩ | ⟨_, rfl⟩) | ⟨_, rfl⟩) | ⟨_, rfl⟩) | ⟨_, rfl⟩) | ⟨_, rfl⟩ <;>
      simp only [Flag.tag] <;> omega

theorem tag_of_mem_headings {t : String} {f : Flag}
    (h : f ∈ check_headings_structure t) : 20 ≤ f.tag ∧ f.tag ≤ 21 := by
  unfold check_headings_structure at h
  split at h
  · simp at h
  · split at h
    · simp only [List.mem_append, mem_ite_either, List.mem_singleton,
        List.not_mem_nil, and_false, or_false] at h
      rcases h with ⟨_, rfl⟩ | ⟨_, rfl⟩ <;> simp only [Flag.tag] <;> omega
    · simp at h

theorem tag_of_mem_prose {t : String} {f : Flag}
    (h : f ∈ check_paragraph_as_prose_in_notes t) : 22 ≤ f.tag ∧ f.tag ≤ 23 := by
  unfold check_paragraph_as_prose_in_notes at h
  split at h
  · simp at h
  · simp only [List.mem_append, mem_ite_either, List.mem_singleton,
      List.not_mem_nil, and_false, or_false] at h
    rcases h with ⟨_, rfl⟩ | ⟨_, rfl⟩ <;> simp only [Flag.tag] <;> omega

theorem tag_of_mem_bib {t : String} {f : Flag}
    (h : f ∈ check_bibliographic_markers t) : 24 ≤ f.tag ∧ f.tag ≤ 28 := by
  unfold check_bibliographic_markers at h
  split at h
  · simp at h
  · simp only [List.mem_append, mem_ite_either, List.mem_singleton,
      List.not_mem_nil, and_false, or_false, false_or] at h
    rcases h with
      (⟨_, rfl⟩ | ⟨_, (⟨_, rfl⟩ | ⟨_, rfl⟩) | ⟨_, rfl⟩⟩) | ⟨_, rfl⟩ <;>
      simp only [Flag.tag] <;> omega

theorem mem_crossFlags {body : String} {uid : Option Int} {pool : List Submission}
    {f : Flag} (h : f ∈ crossSubmissionFlags body uid pool) :
    ∃ n p, f = Flag.highlySimilar n p := by
  induction pool with
  | nil => simp [crossSubmissionFlags] at h
  | cons s rest ih =>
    unfold crossSubmissionFlags at h
    split_ifs at h with h1 h2 h3
    · exact ih h
    · simp only [List.mem_singleton] at h
      exact ⟨_, _, h⟩
    · exact ih h
    · exact ih h

theorem tag_of_mem_attachment {atts : List Attachment} {f : Flag}
    (h : f ∈ attachmentFlags atts) : f.tag = 30 ∨ f.tag = 31 := by
  unfold attachmentFlags at h
  simp only [List.mem_flatten, List.mem_map] at h
  obtain ⟨L, ⟨a, _, rfl⟩, hf⟩ := h
  simp only [List.mem_append, mem_ite_either, List.mem_singleton,
    List.not_mem_nil, and_false, or_false] at hf
  rcases hf with ⟨_, rfl⟩ | ⟨_, rfl⟩ <;> simp [Flag.tag]

theorem essayOrg_tag_absent {t : String} {f : Flag}
    (hf : ¬(14 ≤ f.tag ∧ f.tag ≤ 19)) : f ∉ check_essay_organization t :=
  fun h => hf (tag_of_mem_essayOrg h)

theorem headings_tag_absent {t : String} {f : Flag}
    (hf : ¬(20 ≤ f.tag ∧ f.tag ≤ 21)) : f ∉ check_headings_structure t :=
  fun h => hf (tag_of_mem_headings h)

theorem prose_tag_absent {t : String} {f : Flag}
    (hf : ¬(22 ≤ f.tag ∧ f.tag ≤ 23)) : f ∉ check_paragraph_as_prose_in_notes t :=
  fun h => hf (tag_of_mem_prose h)

theorem bib_tag_absent {t : String} {f : Flag}
    (hf : ¬(24 ≤ f.tag ∧ f.tag ≤ 28)) : f ∉ check_bibliographic_markers t :=
  fun h => hf (tag_of_mem_bib h)

theorem cross_tag_absent {body : String} {uid : Option Int}
    {pool : List Submission} {f : Flag} (hf : f.tag ≠ 29) :
    f ∉ crossSubmissionFlags body uid pool := by
  intro h
  obtain ⟨n, p, rfl⟩ := mem_crossFlags h
  exact hf rfl

theorem attachment_tag_absent {atts : List Attachment} {f : Flag}
    (hf : f.tag ≠ 30 ∧ f.tag ≠ 31) : f ∉ attachmentFlags atts := by
  intro h
  rcases tag_of_mem_attachment h with h30 | h31
  · exact hf.1 h30
  · exact hf.2 h31

theorem isHighlySimilar_iff {f : Flag} :
    f.isHighlySimilar = true ↔ ∃ n p, f = Flag.highlySimilar n p := by
  cases f <;> simp [Flag.isHighlySimilar]

theorem essayOrg_no_repetitive (t : String) :
    Flag.repetitiveReasoning ∉ check_essay_organization t :=
  essayOrg_tag_absent (by decide)

theorem headings_no_repetitive (t : String) :
    Flag.repetitiveReasoning ∉ check_headings_structure t :=
  headings_tag_absent (by decide)

theorem prose_no_repetitive (t : String) :
    Flag.repetitiveReasoning ∉ check_paragraph_as_prose_in_notes t :=
  prose_tag_absent (by decide)

theorem bib_no_repetitive (t : String) :
    Flag.repetitiveReasoning ∉ check_bibliographic_markers t :=
  bib_tag_absent (by decide)

theorem cross_no_repetitive (b : String) (u : Option Int) (p : List Submission) :
    Flag.repetitiveReasoning ∉ crossSubmissionFlags b u p :=
  cross_tag_absent (by decide)

theorem essayOrg_no_uniform (t : String) :
    Flag.suspiciouslyUniformParagraphs ∉ check_essay_organization t :=
  essayOrg_tag_absent (by decide)

theorem headings_no_uniform (t : String) :
    Flag.suspiciouslyUniformParagraphs ∉ check_headings_structure t :=
  headings_tag_absent (by decide)

theorem prose_no_uniform (t : String) :
    Flag.suspiciouslyUniformParagraphs ∉ check_paragraph_as_prose_in_notes t :=
  prose_tag_absent (by decide)

theorem bib_no_uniform (t : String) :
    Flag.suspiciouslyUniformParagraphs ∉ check_bibliographic_markers t :=
  bib_tag_absent (by decide)

theorem cross_no_uniform (b : String) (u : Option Int) (p : List Submission) :
    Flag.suspiciouslyUniformParagraphs ∉ crossSubmissionFlags b u p :=
  cross_tag_absent (by decide)

theorem essayOrg_no_tooPolished (t : String) (q : Int) :
    Flag.tooPolishedForNotes q ∉ check_essay_organization t :=
  essayOrg_tag_absent (by simp [Flag.tag])

theorem headings_no_tooPolished (t : String) (q : Int) :
    Flag.tooPolishedForNotes q ∉ check_headings_structure t :=
  headings_tag_absent (by simp [Flag.tag])

theorem prose_no_tooPolished (t : String) (q : Int) :
    Flag.tooPolishedForNotes q ∉ check_paragraph_as_prose_in_notes t :=
  prose_tag_absent (by simp [Flag.tag])

theorem bib_no_tooPolished (t : String) (q : Int) :
    Flag.tooPolishedForNotes q ∉ check_bibliographic_markers t :=
  bib_tag_absent (by simp [Flag.tag])

theorem cross_no_tooPolished (b : String) (u : Option Int) (p : List Submission)
    (q : Int) : Flag.tooPolishedForNotes q ∉ crossSubmissionFlags b u p :=
  cross_tag_absent (by simp [Flag.tag])

theorem essayOrg_no_suspPolished (t : String) (q : Int) :
    Flag.suspiciouslyPolished q ∉ check_essay_organization t :=
  essayOrg_tag_absent (by simp [Flag.tag])

theorem headings_no_suspPolished (t : String) (q : Int) :
    Flag.suspiciouslyPolished q ∉ check_headings_structure t :=
  headings_tag_absent (by simp [Flag.tag])

theorem prose_no_suspPolished (t : String) (q : Int) :
    Flag.suspiciouslyPolished q ∉ check_paragraph_as_prose_in_notes t :=
  prose_tag_absent (by simp [Flag.tag])

theorem bib_no_suspPolished (t : String) (q : Int) :
    Flag.suspiciouslyPolished q ∉ check_bibliographic_markers t :=
  bib_tag_absent (by simp [Flag.tag])

theorem cross_no_suspPolished (b : String) (u : Option Int) (p : List Submission)
    (q : Int) : Flag.suspiciouslyPolished q ∉ crossSubmissionFlags b u p :=
  cross_tag_absent (by simp [Flag.tag])

theorem repetitive_mem_bodyFlags_iff (cp : Option String) (body : String)
    (uid : Option Int) (pool : List Submission) :
    Flag.repetitiveReasoning ∈ bodyFlags cp body uid pool ↔
      check_repetitive_reasoning body = true := by
  unfold bodyFlags
  simp [mem_ite_either, essayOrg_no_repetitive, headings_no_repetitive,
    prose_no_repetitive, bib_no_repetitive, cross_no_repetitive]

theorem uniform_mem_bodyFlags_iff (cp : Option String) (body : String)
    (uid : Option Int) (pool : List Submission) :
    Flag.suspiciouslyUniformParagraphs ∈ bodyFlags cp body uid pool ↔
      is_check_enabled cp "complete_sentences" = true ∧
        uniformityExceedsPoint8 body = true := by
  unfold bodyFlags
  simp [mem_ite_either, essayOrg_no_uniform, headings_no_uniform,
    prose_no_uniform, bib_no_uniform, cross_no_uniform]

theorem tooPolished_mem_bodyFlags_iff (cp : Option String) (body : String)
    (uid : Option Int) (pool : List Submission) (q : Int) :
    Flag.tooPolishedForNotes q ∈ bodyFlags cp body uid pool ↔
      is_check_enabled cp "complete_sentences" = true ∧
      ((invertChecksOf cp).lookup "complete_sentences").getD false = true ∧
      ((get_threshold cp "complete_sentence_percent" : ℚ) / 100 <
        check_sentence_completeness body ∧ 50 < count_words body) ∧
      q = pyInt (check_sentence_completeness body * 100) := by
  unfold bodyFlags
  simp [mem_ite_either, essayOrg_no_tooPolished, headings_no_tooPolished,
    prose_no_tooPolished, bib_no_tooPolished, cross_no_tooPolished]

theorem suspPolished_mem_bodyFlags_iff (cp : Option String) (body : String)
    (uid : Option Int) (pool : List Submission) (q : Int) :
    Flag.suspiciouslyPolished q ∈ bodyFlags cp body uid pool ↔
      is_check_enabled cp "complete_sentences" = true ∧
      ¬(((invertChecksOf cp).lookup "complete_sentences").getD false = true) ∧
      ((get_threshold cp "complete_sentence_percent" : ℚ) / 100 <
        check_sentence_completeness body ∧ 100 < count_words body) ∧
      q = pyInt (check_sentence_completeness body * 100) := by
  unfold bodyFlags
  simp [mem_ite_either, essayOrg_no_suspPolished, headings_no_suspPolished,
    prose_no_suspPolished, bib_no_suspPolished, cross_no_suspPolished]

theorem tag_of_mem_bodyFlags {cp : Option String} {body : String}
    {uid : Option Int} {pool : List Submission} {f : Flag}
    (h : f ∈ bodyFlags cp body uid pool) : f.tag ≤ 29 := by
  unfold bodyFlags at h
  simp only [List.mem_append, mem_ite_either, List.mem_singleton,
    List.not_mem_nil, and_false, or_false, false_or] at h
  rcases h with
    ((((((((((((((((⟨_, rfl⟩ | ⟨_, rfl⟩) | ⟨_, rfl⟩) | ⟨_, rfl⟩) | ⟨_, rfl⟩) | ⟨_, rfl⟩) | ⟨_, rfl⟩) | ⟨_, rfl⟩) | ⟨_, rfl⟩) | ⟨_, rfl⟩) | ⟨_, rfl⟩) | ⟨_, rfl⟩) | ⟨_, ⟨_, _, rfl⟩ | ⟨_, _, rfl⟩⟩) | ⟨_, h14⟩) | ⟨_, h15⟩) | ⟨_, h16⟩) | ⟨_, h17⟩) | ⟨_, h18⟩
  all_goals first
    | (simp only [Flag.tag]; omega)
    | (have hh := tag_of_mem_essayOrg h14; omega)
    | (have hh := tag_of_mem_headings h15; omega)
    | (have hh := tag_of_mem_prose h16; omega)
    | (have hh := tag_of_mem_bib h17; omega)
    | (obtain ⟨n, p, rfl⟩ := mem_crossFlags h18; simp only [Flag.tag]; omega)

theorem crossFlags_length_le_one (body : String) (uid : Option Int) :
    ∀ pool : List Submission, (crossSubmissionFlags body uid pool).length ≤ 1 := by
  intro pool
  induction pool with
  | nil => simp [crossSubmissionFlags]
  | cons s rest ih =>
    unfold crossSubmissionFlags
    split_ifs
    · exact ih
    · simp
    · exact ih
    · exact ih

theorem countP_hs_essayOrg (t : String) :
    (check_essay_organization t).countP Flag.isHighlySimilar = 0 :=
  List.countP_eq_zero.mpr (fun f hf hp => by
    obtain ⟨n, q, rfl⟩ := isHighlySimilar_iff.mp hp
    have := tag_of_mem_essayOrg hf
    simp [Flag.tag] at this)

theorem countP_hs_headings (t : String) :
    (check_headings_structure t).countP Flag.isHighlySimilar = 0 :=
  List.countP_eq_zero.mpr (fun f hf hp => by
    obtain ⟨n, q, rfl⟩ := isHighlySimilar_iff.mp hp
    have := tag_of_mem_headings hf
    simp [Flag.tag] at this)

theorem countP_hs_prose (t : String) :
    (check_paragraph_as_prose_in_notes t).countP Flag.isHighlySimilar = 0 :=
  List.countP_eq_zero.mpr (fun f hf hp => by
    obtain ⟨n, q, rfl⟩ := isHighlySimilar_iff.mp hp
    have := tag_of_mem_prose hf
    simp [Flag.tag] at this)

theorem countP_hs_bib (t : String) :
    (check_bibliographic_markers t).countP Flag.isHighlySimilar = 0 :=
  List.countP_eq_zero.mpr (fun f hf hp => by
    obtain ⟨n, q, rfl⟩ := isHighlySimilar_iff.mp hp
    have := tag_of_mem_bib hf
    simp [Flag.tag] at this)

theorem countP_hs_attachment (atts : List Attachment) :
    (attachmentFlags atts).countP Flag.isHighlySimilar = 0 :=
  List.countP_eq_zero.mpr (fun f hf hp => by
    obtain ⟨n, q, rfl⟩ := isHighlySimilar_iff.mp hp
    rcases tag_of_mem_attachment hf with h | h <;> simp [Flag.tag] at h)

theorem countP_hs_bodyFlags_le_one (cp : Option String) (body : String)
    (uid : Option Int) (pool : List Submission) :
    (bodyFlags cp body uid pool).countP Flag.isHighlySimilar ≤ 1 := by
  unfold bodyFlags
  simp only [List.countP_append, apply_ite (List.countP Flag.isHighlySimilar),
    List.countP_nil, List.countP_cons, countP_hs_essayOrg,
    countP_hs_headings, countP_hs_prose, countP_hs_bib, Flag.isHighlySimilar]
  simp only [Bool.false_eq_true, if_false, add_zero, zero_add, ite_self]
  split_ifs with h
  · exact le_trans (List.countP_le_length _) (crossFlags_length_le_one body uid pool)
  · exact Nat.zero_le 1

/-- C10: on every input pair the revision score of `compare_drafts` is at
most 60: at most 30 from the sentence-change ratio, 10 from a changed
paragraph count and 20 from new vocabulary, despite the `min(score, 100)`
cap suggesting a 0–100 scale. -/
theorem c10_revision_score_le_60 (d1 d2 : String) :
    (compare_drafts d1 d2).revision_score ≤ 60 := by
  have ha : draftScoreChange d1 d2 ≤ 30 := by
    unfold draftScoreChange
    split_ifs <;> omega
  have hc : draftScoreVocab d1 d2 ≤ 20 := by
    unfold draftScoreVocab
    split_ifs <;> omega
  have hs : draftScore d1 d2 ≤ 60 := by
    unfold draftScore
    refine le_trans (Nat.min_le_left _ _) ?_
    split_ifs <;> omega
  unfold compare_drafts
  split_ifs <;> simp [hs]

theorem compare_drafts_self (t : String) (h : t ≠ "") :
    compare_drafts t t = ⟨[Flag.criticalNoRevision], 0⟩ := by
  have hs : calculate_text_similarity t t = 1 := calculate_text_similarity_self t h
  unfold compare_drafts
  rw [if_neg (by simp [h]), if_pos (by rw [hs]; norm_num)]

/-- C6: for every non-empty text, comparing a draft against itself yields
similarity `1.0 ≥ 0.98`, hence the critical no-revision flag and a revision
score of 0 from the early return. -/
theorem c6_compare_drafts_no_revision (t : String) (h : t ≠ "") :
    (compare_drafts t t).revision_score = 0 ∧
      Flag.criticalNoRevision ∈ (compare_drafts t t).flags ∧
      (0.98 : ℚ) ≤ calculate_text_similarity t t := by
  rw [compare_drafts_self t h]
  refine ⟨rfl, by simp, ?_⟩
  rw [calculate_text_similarity_self t h]
  norm_num

/-- Witness for C6 at the concrete draft "alpha beta gamma". -/
theorem c6_compare_drafts_no_revision_witness :
    "alpha beta gamma" ≠ "" ∧
      (compare_drafts "alpha beta gamma" "alpha beta gamma").revision_score = 0 ∧
      Flag.criticalNoRevision ∈
        (compare_drafts "alpha beta gamma" "alpha beta gamma").flags :=
  ⟨by decide, (c6_compare_drafts_no_revision "alpha beta gamma" (by decide)).1,
    (c6_compare_drafts_no_revision "alpha beta gamma" (by decide)).2.1⟩

set_option maxRecDepth 100000 in
/-- C3 counterexample: in the text "As shown in (Smith, 2021) and (Jones,
2021)." two in-text citations are detected and 100% of them (more than
40%) cluster in the single year 2021, yet `check_bibliographic_markers`
appends no clustered-in-one-year flag (its only flag is the
common-surnames one), because the source also requires the most common
year to hold at least 3 citations. -/
theorem c3_clustered_year_counterexample :
    extractAPACitations "As shown in (Smith, 2021) and (Jones, 2021)." =
      [("Smith", "2021"), ("Jones", "2021")] ∧
    check_bibliographic_markers "As shown in (Smith, 2021) and (Jones, 2021)." =
      [Flag.commonSurnameCitations 2] := by
  constructor
  · with_unfolding_all rfl
  · with_unfolding_all rfl

/-- C3 (amended): whenever citations are detected, the most common year
holds at least 3 of them, and more than 40% of the detected citations
cluster in that year, the clustered-in-one-year flag is appended. -/
theorem c3_clustered_year_flag (text : String)
    (hne : extractAPACitations text ≠ [])
    (hmin : 3 ≤ maxYearCount ((extractAPACitations text).map Prod.snd))
    (hratio : (2 : ℚ) / 5 <
      (maxYearCount ((extractAPACitations text).map Prod.snd) : ℚ) /
        ((extractAPACitations text).length : ℚ)) :
    Flag.clusteredYearCitations
        (mostCommonYear ((extractAPACitations text).map Prod.snd))
        (maxYearCount ((extractAPACitations text).map Prod.snd)) ∈
      check_bibliographic_markers text := by
  have htext : text ≠ "" := by
    intro h
    rw [h] at hne
    exact hne (by with_unfolding_all rfl)
  unfold check_bibliographic_markers
  rw [if_neg htext]
  simp only [List.mem_append, mem_ite_either, List.mem_singleton,
    List.not_mem_nil, and_false, or_false, false_or]
  exact Or.inl (Or.inr ⟨hne, Or.inr ⟨⟨hmin, hratio⟩, trivial⟩⟩)

set_option maxRecDepth 100000 in
/-- Witness for the amended C3 at a text with three citations in one
year. -/
theorem c3_clustered_year_flag_witness :
    (extractAPACitations "A (Smith, 2021) B (Jones, 2021) C (Taylor, 2021)." ≠ [] ∧
     3 ≤ maxYearCount ((extractAPACitations
        "A (Smith, 2021) B (Jones, 2021) C (Taylor, 2021).").map Prod.snd)) ∧
    Flag.clusteredYearCitations
        (mostCommonYear ((extractAPACitations
          "A (Smith, 2021) B (Jones, 2021) C (Taylor, 2021).").map Prod.snd))
        (maxYearCount ((extractAPACitations
          "A (Smith, 2021) B (Jones, 2021) C (Taylor, 2021).").map Prod.snd)) ∈
      check_bibliographic_markers
        "A (Smith, 2021) B (Jones, 2021) C (Taylor, 2021)." :=
  ⟨⟨by with_unfolding_all decide, by with_unfolding_all decide⟩,
    c3_clustered_year_flag _ (by with_unfolding_all decide)
      (by with_unfolding_all decide) (by with_unfolding_all decide)⟩

/-- C2: the cross-submission scan of `analyze_submission` yields at most
one flag; it skips same-student entries; on the first different-student
sibling with a truthy body whose similarity reaches the 0.85 threshold it
returns exactly one flag naming that student and stops scanning; and the
whole analyser emits at most one "Highly similar" flag per submission. -/
theorem c2_cross_submission_scan (body : String) (uid : Option Int) :
    (∀ pool : List Submission, (crossSubmissionFlags body uid pool).length ≤ 1)
    ∧ (∀ (s : Submission) (rest : List Submission), s.user_id = uid →
        crossSubmissionFlags body uid (s :: rest) =
          crossSubmissionFlags body uid rest)
    ∧ (∀ (s : Submission) (rest : List Submission), s.user_id ≠ uid →
        s.body.getD "" ≠ "" →
        DUPLICATE_SIMILARITY_THRESHOLD ≤
          calculate_text_similarity body (s.body.getD "") →
        crossSubmissionFlags body uid (s :: rest) =
          [Flag.highlySimilar (subUserName s)
            (pyInt (calculate_text_similarity body (s.body.getD "") * 100))])
    ∧ (∀ (cp : Option String) (sub : Submission) (pool : List Submission),
        (analyze_submission cp sub pool).countP Flag.isHighlySimilar ≤ 1) := by
  refine ⟨crossFlags_length_le_one body uid, ?_, ?_, ?_⟩
  · intro s rest h
    simp only [crossSubmissionFlags]
    rw [if_pos h]
  · intro s rest h1 h2 h3
    simp only [crossSubmissionFlags]
    rw [if_neg h1, if_pos h2, if_pos h3]
  · intro cp sub pool
    unfold analyze_submission
    simp only [List.countP_append, apply_ite (List.countP Flag.isHighlySimilar),
      List.countP_nil, List.countP_cons, countP_hs_attachment,
      Flag.isHighlySimilar]
    simp only [Bool.false_eq_true, if_false, add_zero, zero_add, ite_self]
    split_ifs with h
    · exact countP_hs_bodyFlags_le_one cp (sub.body.getD "") sub.user_id pool
    · exact Nat.zero_le 1

set_option maxRecDepth 1000000 in
set_option maxHeartbeats 2000000 in
/-- Witness for C2: a sibling pool with one other-student submission whose
body is identical to the analysed body produces exactly the one duplicate
flag. -/
theorem c2_cross_submission_scan_witness :
    (Submission.mk (some "alpha beta gamma") (some 2) (some "Bob") none
        none).user_id ≠ (some 1) ∧
    crossSubmissionFlags "alpha beta gamma" (some 1)
        [Submission.mk (some "alpha beta gamma") (some 2) (some "Bob") none none] =
      [Flag.highlySimilar
        (subUserName (Submission.mk (some "alpha beta gamma") (some 2)
          (some "Bob") none none))
        (pyInt (calculate_text_similarity "alpha beta gamma"
          ((Submission.mk (some "alpha beta gamma") (some 2) (some "Bob") none
            none).body.getD "") * 100))] :=
  ⟨by decide, (c2_cross_submission_scan "alpha beta gamma" (some 1)).2.2.1 _ []
    (by decide) (by decide) (by with_unfolding_all decide)⟩

theorem check_repetitive_reasoning_iff (text : String) :
    check_repetitive_reasoning text = true ↔
      5 ≤ (repetitiveSentences text).length ∧
      (repetitiveSentences text).length * ((repetitiveSentences text).length - 1) <
        10 * countSimilarPairs (repetitiveSentences text) := by
  unfold check_repetitive_reasoning
  by_cases h1 : text = ""
  · subst h1
    have hz : repetitiveSentences "" = [] := by with_unfolding_all rfl
    simp [hz]
  rw [if_neg h1]
  by_cases h2 : (repetitiveSentences text).length < 5
  · rw [if_pos h2]
    constructor
    · intro h
      simp at h
    · intro h
      omega
  rw [if_neg h2]
  have h5 : 5 ≤ (repetitiveSentences text).length := by omega
  have hm : 0 < (repetitiveSentences text).length *
      ((repetitiveSentences text).length - 1) :=
    Nat.mul_pos (by omega) (by omega)
  have hmq : (0 : ℚ) < (((repetitiveSentences text).length *
      ((repetitiveSentences text).length - 1) : ℕ) : ℚ) := by
    exact_mod_cast hm
  have hpt : (0 : ℚ) < pairTotal (repetitiveSentences text).length := by
    unfold pairTotal
    linarith
  rw [if_pos hpt, decide_eq_true_eq]
  rw [show (0.2 : ℚ) = 1/5 from by norm_num, lt_div_iff₀ hpt]
  unfold pairTotal
  constructor
  · intro h
    refine ⟨h5, ?_⟩
    have h10 : (((repetitiveSentences text).length *
        ((repetitiveSentences text).length - 1) : ℕ) : ℚ) <
        10 * (countSimilarPairs (repetitiveSentences text) : ℚ) := by
      linarith
    exact_mod_cast h10
  · rintro ⟨-, h⟩
    have h10 : (((repetitiveSentences text).length *
        ((repetitiveSentences text).length - 1) : ℕ) : ℚ) <
        10 * (countSimilarPairs (repetitiveSentences text) : ℚ) := by
      exact_mod_cast h
    linarith

/-- C4: `check_repetitive_reasoning` returns true iff the text splits into
at least 5 trimmed sentences longer than 20 characters of which more than
20% of the pairwise combinations exceed 0.7 similarity (the inequality
`n*(n-1) < 10*similar` is the exact fraction comparison
`similar / (n*(n-1)/2) > 0.2`); and `analyze_submission` runs this check
on every truthy body under every profile: the flag appears iff the check
fires. -/
theorem c4_repetitive_reasoning (cp : Option String) (sub : Submission)
    (pool : List Submission) :
    (∀ text : String, check_repetitive_reasoning text = true ↔
      5 ≤ (repetitiveSentences text).length ∧
      (repetitiveSentences text).length * ((repetitiveSentences text).length - 1) <
        10 * countSimilarPairs (repetitiveSentences text))
    ∧ (sub.body.getD "" ≠ "" →
      (Flag.repetitiveReasoning ∈ analyze_submission cp sub pool ↔
        check_repetitive_reasoning (sub.body.getD "") = true)) := by
  refine ⟨check_repetitive_reasoning_iff, ?_⟩
  intro hb
  have hatt : ∀ atts : List Attachment,
      Flag.repetitiveReasoning ∉ attachmentFlags atts :=
    fun _ => attachment_tag_absent (by decide)
  unfold analyze_submission
  rw [if_pos hb]
  simp [mem_ite_either, repetitive_mem_bodyFlags_iff, hatt]

set_option maxRecDepth 1000000 in
set_option maxHeartbeats 2000000 in
/-- Witness for C4 at a body of five identical long sentences. -/
theorem c4_repetitive_reasoning_witness :
    ((Submission.mk
      (some "The cat sat on the big mat today. The cat sat on the big mat today. The cat sat on the big mat today. The cat sat on the big mat today. The cat sat on the big mat today.")
      none none none none).body.getD "" ≠ "") ∧
    Flag.repetitiveReasoning ∈ analyze_submission none
      (Submission.mk
        (some "The cat sat on the big mat today. The cat sat on the big mat today. The cat sat on the big mat today. The cat sat on the big mat today. The cat sat on the big mat today.")
        none none none none) [] :=
  ⟨by decide,
    ((c4_repetitive_reasoning none _ []).2 (by decide)).mpr
      (by with_unfolding_all decide)⟩

/-- C9: the "Suspiciously uniform paragraphs" flag is gated by the
`complete_sentences` enable key (true whenever no profile is active) and
by the fixed, profile-independent `0.8` threshold on
`check_paragraph_uniformity`, for every profile, submission and pool. -/
theorem c9_uniform_flag_gate (cp : Option String) (sub : Submission)
    (pool : List Submission) :
    Flag.suspiciouslyUniformParagraphs ∈ analyze_submission cp sub pool ↔
      is_check_enabled cp "complete_sentences" = true ∧
        (0.8 : ℝ) < check_paragraph_uniformity (sub.body.getD "") := by
  have hatt : ∀ atts : List Attachment,
      Flag.suspiciouslyUniformParagraphs ∉ attachmentFlags atts :=
    fun _ => attachment_tag_absent (by decide)
  unfold analyze_submission
  by_cases hb : sub.body.getD "" = ""
  · rw [if_neg (fun h => h hb), hb]
    have hcomp : uniformityExceedsPoint8 "" = false := by decide
    constructor
    · intro hmem
      exfalso
      simp only [List.nil_append] at hmem
      rcases List.mem_append.mp hmem with h | h
      · exact (mem_ite_either.mp h).elim (fun hp => hatt _ hp.2)
          (fun hp => by simp at hp)
      · rcases mem_ite_either.mp h with ⟨_, hu⟩ | ⟨_, hu⟩ <;> simp at hu
    · rintro ⟨-, hu⟩
      rw [uniformity_gt_four_fifths_iff] at hu
      rw [hcomp] at hu
      exact absurd hu (by simp)
  · rw [if_pos hb]
    simp [mem_ite_either, uniform_mem_bodyFlags_iff, hatt,
      uniformity_gt_four_fifths_iff]

set_option maxRecDepth 1000000 in
set_option maxHeartbeats 2000000 in
/-- C7: under the notes/brainstorm profile (whose `invert_checks` maps
`complete_sentences` to true), every body whose completeness ratio exceeds
the profile threshold with more than 50 words gets the "Too polished for
notes" flag, and no "Suspiciously polished" flag is emitted. -/
theorem c7_notes_profile_inversion (sub : Submission) (pool : List Submission)
    (hc : (get_threshold (some "notes_brainstorm") "complete_sentence_percent" : ℚ)
      / 100 < check_sentence_completeness (sub.body.getD ""))
    (hw : 50 < count_words (sub.body.getD "")) :
    ((invertChecksOf (some "notes_brainstorm")).lookup
      "complete_sentences").getD false = true ∧
    Flag.tooPolishedForNotes
        (pyInt (check_sentence_completeness (sub.body.getD "") * 100)) ∈
      analyze_submission (some "notes_brainstorm") sub pool ∧
    ∀ q : Int, Flag.suspiciouslyPolished q ∉
      analyze_submission (some "notes_brainstorm") sub pool := by
  have hb : sub.body.getD "" ≠ "" := by
    intro h
    rw [h] at hw
    simp [count_words] at hw
  refine ⟨by decide, ?_, ?_⟩
  · unfold analyze_submission
    rw [if_pos hb]
    refine List.mem_append.mpr (Or.inl (List.mem_append.mpr (Or.inl ?_)))
    exact (tooPolished_mem_bodyFlags_iff _ _ _ _ _).mpr
      ⟨by decide, by decide, ⟨hc, hw⟩, rfl⟩
  · intro q
    unfold analyze_submission
    rw [if_pos hb]
    intro hmem
    rcases List.mem_append.mp hmem with hAB | hC
    · rcases List.mem_append.mp hAB with hA | hB
      · have := (suspPolished_mem_bodyFlags_iff _ _ _ _ _).mp hA
        exact this.2.1 (by decide)
      · rcases mem_ite_either.mp hB with ⟨_, hp⟩ | ⟨_, hp⟩
        · exact attachment_tag_absent (by simp [Flag.tag]) hp
        · simp at hp
    · rcases mem_ite_either.mp hC with ⟨_, hp⟩ | ⟨_, hp⟩ <;> simp at hp

set_option maxRecDepth 1000000 in
set_option maxHeartbeats 2000000 in
/-- Witness for C7 at a 56-word fully complete-sentence body. -/
theorem c7_notes_profile_inversion_witness :
    ((get_threshold (some "notes_brainstorm") "complete_sentence_percent" : ℚ)
      / 100 < check_sentence_completeness ((Submission.mk (some
        "Alpha beta gamma delta epsilon zeta eta theta. Alpha beta gamma delta epsilon zeta eta theta. Alpha beta gamma delta epsilon zeta eta theta. Alpha beta gamma delta epsilon zeta eta theta. Alpha beta gamma delta epsilon zeta eta theta. Alpha beta gamma delta epsilon zeta eta theta. Alpha beta gamma delta epsilon zeta eta theta.")
        none none none none).body.getD "")) ∧
    Flag.tooPolishedForNotes
        (pyInt (check_sentence_completeness ((Submission.mk (some
          "Alpha beta gamma delta epsilon zeta eta theta. Alpha beta gamma delta epsilon zeta eta theta. Alpha beta gamma delta epsilon zeta eta theta. Alpha beta gamma delta epsilon zeta eta theta. Alpha beta gamma delta epsilon zeta eta theta. Alpha beta gamma delta epsilon zeta eta theta. Alpha beta gamma delta epsilon zeta eta theta.")
          none none none none).body.getD "") * 100)) ∈
      analyze_submission (some "notes_brainstorm")
        (Submission.mk (some
          "Alpha beta gamma delta epsilon zeta eta theta. Alpha beta gamma delta epsilon zeta eta theta. Alpha beta gamma delta epsilon zeta eta theta. Alpha beta gamma delta epsilon zeta eta theta. Alpha beta gamma delta epsilon zeta eta theta. Alpha beta gamma delta epsilon zeta eta theta. Alpha beta gamma delta epsilon zeta eta theta.")
          none none none none) [] :=
  ⟨by with_unfolding_all decide,
    (c7_notes_profile_inversion _ [] (by with_unfolding_all decide)
      (by with_unfolding_all decide)).2.1⟩

/-- C8: `analyze_submission` is a total function into flag lists, and each
absent field contributes nothing: with a falsy body only attachment/URL
flags can appear, with no attachments no attachment flags appear, with a
falsy URL no URL flag appears, and with all three absent the result is
exactly the empty list. -/
theorem c8_missing_fields_degrade (cp : Option String) (sub : Submission)
    (pool : List Submission) :
    (sub.body.getD "" = "" →
      ∀ f ∈ analyze_submission cp sub pool, 30 ≤ f.tag)
    ∧ (sub.attachments.getD [] = [] →
      ∀ f ∈ analyze_submission cp sub pool, f.tag ≠ 30 ∧ f.tag ≠ 31)
    ∧ (sub.url.getD "" = "" →
      Flag.urlNoDescription ∉ analyze_submission cp sub pool)
    ∧ (sub.body.getD "" = "" → sub.attachments.getD [] = [] →
      sub.url.getD "" = "" → analyze_submission cp sub pool = []) := by
  refine ⟨?_, ?_, ?_, ?_⟩
  · intro hb f hf
    unfold analyze_submission at hf
    rw [if_neg (show ¬(sub.body.getD "" ≠ "") from fun h => h hb)] at hf
    simp only [List.nil_append] at hf
    rcases List.mem_append.mp hf with h | h
    · rcases mem_ite_either.mp h with ⟨_, hp⟩ | ⟨_, hp⟩
      · rcases tag_of_mem_attachment hp with h30 | h31 <;> omega
      · simp at hp
    · rcases mem_ite_either.mp h with ⟨_, hp⟩ | ⟨_, hp⟩
      · simp only [List.mem_singleton] at hp
        subst hp
        simp [Flag.tag]
      · simp at hp
  · intro ha f hf
    unfold analyze_submission at hf
    rw [if_neg (show ¬(sub.attachments.getD [] ≠ []) from fun h => h ha)] at hf
    simp only [List.append_nil] at hf
    rcases List.mem_append.mp hf with h | h
    · rcases mem_ite_either.mp h with ⟨_, hp⟩ | ⟨_, hp⟩
      · have := tag_of_mem_bodyFlags hp
        omega
      · simp at hp
    · rcases mem_ite_either.mp h with ⟨_, hp⟩ | ⟨_, hp⟩
      · simp only [List.mem_singleton] at hp
        subst hp
        simp [Flag.tag]
      · simp at hp
  · intro hu hmem
    unfold analyze_submission at hmem
    rw [if_neg (show ¬(sub.url.getD "" ≠ "" ∧ sub.body.getD "" = "" ∧
      sub.attachments.getD [] = []) from fun h => h.1 hu)] at hmem
    simp only [List.append_nil] at hmem
    rcases List.mem_append.mp hmem with h | h
    · rcases mem_ite_either.mp h with ⟨_, hp⟩ | ⟨_, hp⟩
      · have := tag_of_mem_bodyFlags hp
        simp [Flag.tag] at this
      · simp at hp
    · rcases mem_ite_either.mp h with ⟨_, hp⟩ | ⟨_, hp⟩
      · exact attachment_tag_absent (by decide) hp
      · simp at hp
  · intro hb ha hu
    unfold analyze_submission
    rw [if_neg (show ¬(sub.body.getD "" ≠ "") from fun h => h hb),
      if_neg (show ¬(sub.attachments.getD [] ≠ []) from fun h => h ha),
      if_neg (show ¬(sub.url.getD "" ≠ "" ∧ sub.body.getD "" = "" ∧
        sub.attachments.getD [] = []) from fun h => h.1 hu)]
    rfl

/-- Witness for C8: the all-absent submission record yields no flags. -/
theorem c8_missing_fields_degrade_witness :
    ((Submission.mk none none none none none).body.getD "" = "" ∧
     (Submission.mk none none none none none).attachments.getD [] = [] ∧
     (Submission.mk none none none none none).url.getD "" = "") ∧
    analyze_submission none (Submission.mk none none none none none) [] = [] :=
  ⟨⟨by decide, by decide, by decide⟩,
    (c8_missing_fields_degrade none _ []).2.2.2 (by decide) (by decide)
      (by decide)⟩

theorem lookup_mem {l : List (Int × String)} {a : Int} {t : String}
    (h : l.lookup a = some t) : (a, t) ∈ l := by
  induction l with
  | nil => simp [List.lookup] at h
  | cons p rest ih =>
    by_cases he : a = p.1
    · subst he
      simp [List.lookup] at h
      subst h
      exact List.mem_cons_self _ _
    · simp [List.lookup, beq_false_of_ne he] at h
      exact List.mem_cons_of_mem _ (ih h)

theorem mem_lookup_of_nodup {l : List (Int × String)} {a : Int} {t : String}
    (hn : (l.map Prod.fst).Nodup) (h : (a, t) ∈ l) : l.lookup a = some t := by
  induction l with
  | nil => simp at h
  | cons p rest ih =>
    simp only [List.map_cons, List.nodup_cons] at hn
    rcases List.mem_cons.mp h with heq | hm
    · rw [← heq]
      simp [List.lookup]
    · have hne : ¬(a = p.1) := by
        rintro rfl
        exact hn.1 (List.mem_map.mpr ⟨(p.1, t), hm, rfl⟩)
      simp [List.lookup, beq_false_of_ne hne]
      exact ih hn.2 hm

theorem two_mem_sublist {α : Type} {l : List α} {a b : α} (ha : a ∈ l)
    (hb : b ∈ l) (hab : a ≠ b) : [a, b].Sublist l ∨ [b, a].Sublist l := by
  induction l with
  | nil => simp at ha
  | cons x rest ih =>
    rcases List.mem_cons.mp ha with rfl | ha'
    · have hb' : b ∈ rest := by
        rcases List.mem_cons.mp hb with rfl | h
        · exact absurd rfl hab
        · exact h
      exact Or.inl (List.cons_sublist_cons.mpr (List.singleton_sublist.mpr hb'))
    · rcases List.mem_cons.mp hb with rfl | hb'
      · exact Or.inr (List.cons_sublist_cons.mpr (List.singleton_sublist.mpr ha'))
      · rcases ih ha' hb' with h | h
        · exact Or.inl (h.cons x)
        · exact Or.inr (h.cons x)

theorem mem_pairsOf_iff {α : Type} {xs : List α} {a b : α} :
    (a, b) ∈ pairsOf xs ↔ [a, b].Sublist xs := by
  induction xs with
  | nil => simp [pairsOf]
  | cons x rest ih =>
    simp only [pairsOf, List.mem_append, List.mem_map, ih]
    constructor
    · rintro (⟨y, hy, heq⟩ | hs)
      · injection heq with h1 h2
        subst h1
        subst h2
        exact List.cons_sublist_cons.mpr (List.singleton_sublist.mpr hy)
      · exact hs.cons x
    · intro hs
      cases hs with
      | cons _ h => exact Or.inr h
      | cons₂ _ h => exact Or.inl ⟨b, List.singleton_sublist.mp h, rfl⟩

theorem student_subs_keys_sublist (all_data : List (Nat × AssignmentData))
    (uid : Int) :
    ((student_subs all_data uid).map Prod.fst).Sublist
      (all_data.map Prod.fst) := by
  induction all_data with
  | nil => simp [student_subs]
  | cons p rest ih =>
    cases hq : qualifyingText p.2 uid with
    | none =>
      simp only [student_subs, List.filterMap_cons, hq, Option.map_none,
        List.map_cons] at *
      exact ih.cons p.1
    | some t =>
      simp only [student_subs, List.filterMap_cons, hq, Option.map_some,
        List.map_cons] at *
      exact List.cons_sublist_cons.mpr ih

theorem mem_student_subs_iff {all_data : List (Nat × AssignmentData)}
    {uid : Int} {e : Nat × String}
    (husers : ∀ p ∈ all_data, (p.2.submission_texts.map Prod.fst).Nodup) :
    e ∈ student_subs all_data uid ↔
      ∃ d : AssignmentData, (e.1, d) ∈ all_data ∧
        (uid, e.2) ∈ d.submission_texts ∧ e.2 ≠ "" ∧
        50 < (pySplit e.2).length := by
  unfold student_subs
  rw [List.mem_filterMap]
  constructor
  · rintro ⟨⟨a, d⟩, hmem, hmap⟩
    cases hq : qualifyingText d uid with
    | none => rw [hq] at hmap; simp at hmap
    | some t =>
      rw [hq] at hmap
      simp at hmap
      subst hmap
      unfold qualifyingText at hq
      cases hl : d.submission_texts.lookup uid with
      | none => rw [hl] at hq; simp at hq
      | some t0 =>
        rw [hl] at hq
        have hq2 : (if t0 ≠ "" ∧ 50 < (pySplit t0).length then some t0
            else none) = some t := by simpa using hq
        split_ifs at hq2 with hcond
        simp only [Option.some.injEq] at hq2
        subst hq2
        exact ⟨d, hmem, lookup_mem hl, hcond.1, hcond.2⟩
  · rintro ⟨d, hmem, htex, hne, hlen⟩
    refine ⟨(e.1, d), hmem, ?_⟩
    have hl : d.submission_texts.lookup uid = some e.2 :=
      mem_lookup_of_nodup (husers _ hmem) htex
    unfold qualifyingText
    rw [hl]
    simp [hne, hlen]

/-- C5: a student appears in the self-plagiarism result map iff some pair
of that student's own submissions to two different assignments, each
truthy and longer than 50 words, has Jaccard similarity at least 0.70;
submissions of 50 words or fewer never participate.  The hypotheses state
that `all_data` and each `submission_texts` are Python dicts (distinct
keys). -/
theorem c5_self_plagiarism (all_data : List (Nat × AssignmentData)) (uid : Int)
    (hkeys : (all_data.map Prod.fst).Nodup)
    (husers : ∀ p ∈ all_data, (p.2.submission_texts.map Prod.fst).Nodup) :
    hasSelfPlagiarism all_data uid = true ↔
      ∃ (a1 a2 : Nat) (d1 d2 : AssignmentData) (t1 t2 : String),
        (a1, d1) ∈ all_data ∧ (a2, d2) ∈ all_data ∧ a1 ≠ a2 ∧
        (uid, t1) ∈ d1.submission_texts ∧ (uid, t2) ∈ d2.submission_texts ∧
        t1 ≠ "" ∧ t2 ≠ "" ∧
        50 < (pySplit t1).length ∧ 50 < (pySplit t2).length ∧
        (0.7 : ℚ) ≤ calculate_text_similarity t1 t2 := by
  unfold hasSelfPlagiarism
  rw [List.any_eq_true]
  constructor
  · rintro ⟨⟨e1, e2⟩, hpp, hsim⟩
    rw [decide_eq_true_eq] at hsim
    have hsub : [e1, e2].Sublist (student_subs all_data uid) :=
      mem_pairsOf_iff.mp hpp
    have h1 : e1 ∈ student_subs all_data uid := hsub.subset (by simp)
    have h2 : e2 ∈ student_subs all_data uid := hsub.subset (by simp)
    have hkeys2 : ((student_subs all_data uid).map Prod.fst).Nodup :=
      (student_subs_keys_sublist all_data uid).nodup hkeys
    have hne : e1.1 ≠ e2.1 := by
      have hpair : ([e1, e2].map Prod.fst).Nodup :=
        (hsub.map Prod.fst).nodup hkeys2
      simp at hpair
      exact hpair
    obtain ⟨d1, hd1, ht1, hne1, hlen1⟩ := (mem_student_subs_iff husers).mp h1
    obtain ⟨d2, hd2, ht2, hne2, hlen2⟩ := (mem_student_subs_iff husers).mp h2
    exact ⟨e1.1, e2.1, d1, d2, e1.2, e2.2, hd1, hd2, hne, ht1, ht2,
      hne1, hne2, hlen1, hlen2, hsim⟩
  · rintro ⟨a1, a2, d1, d2, t1, t2, hd1, hd2, hne, ht1, ht2, hne1, hne2,
      hlen1, hlen2, hsim⟩
    have h1 : (a1, t1) ∈ student_subs all_data uid :=
      (mem_student_subs_iff husers).mpr ⟨d1, hd1, ht1, hne1, hlen1⟩
    have h2 : (a2, t2) ∈ student_subs all_data uid :=
      (mem_student_subs_iff husers).mpr ⟨d2, hd2, ht2, hne2, hlen2⟩
    have hne12 : ((a1, t1) : Nat × String) ≠ (a2, t2) := by
      intro h
      injection h with hh1 hh2
      exact hne hh1
    rcases two_mem_sublist h1 h2 hne12 with hs | hs
    · exact ⟨((a1, t1), (a2, t2)), mem_pairsOf_iff.mpr hs,
        by rw [decide_eq_true_eq]; exact hsim⟩
    · refine ⟨((a2, t2), (a1, t1)), mem_pairsOf_iff.mpr hs, ?_⟩
      rw [decide_eq_true_eq, calculate_text_similarity_comm]
      exact hsim

set_option maxRecDepth 1000000 in
set_option maxHeartbeats 2000000 in
/-- Witness for C5: one student (id 7) submitting the same 51-word text to
two different assignments is reported by the self-plagiarism check. -/
theorem c5_self_plagiarism_witness :
    ((([(1, AssignmentData.mk "A1" [(7, "a a a a a a a a a a a a a a a a a a a a a a a a a a a a a a a a a a a a a a a a a a a a a a a a a a a")]),
        (2, AssignmentData.mk "A2" [(7, "a a a a a a a a a a a a a a a a a a a a a a a a a a a a a a a a a a a a a a a a a a a a a a a a a a a")])] :
        List (Nat × AssignmentData)).map Prod.fst).Nodup ∧
      hasSelfPlagiarism
        [(1, AssignmentData.mk "A1" [(7, "a a a a a a a a a a a a a a a a a a a a a a a a a a a a a a a a a a a a a a a a a a a a a a a a a a a")]),
         (2, AssignmentData.mk "A2" [(7, "a a a a a a a a a a a a a a a a a a a a a a a a a a a a a a a a a a a a a a a a a a a a a a a a a a a")])] 7 = true) :=
  ⟨by decide,
    (c5_self_plagiarism _ 7 (by decide) (by decide)).mpr
      ⟨1, 2, AssignmentData.mk "A1" [(7, "a a a a a a a a a a a a a a a a a a a a a a a a a a a a a a a a a a a a a a a a a a a a a a a a a a a")],
        AssignmentData.mk "A2" [(7, "a a a a a a a a a a a a a a a a a a a a a a a a a a a a a a a a a a a a a a a a a a a a a a a a a a a")], "a a a a a a a a a a a a a a a a a a a a a a a a a a a a a a a a a a a a a a a a a a a a a a a a a a a", "a a a a a a a a a a a a a a a a a a a a a a a a a a a a a a a a a a a a a a a a a a a a a a a a a a a",
        by decide, by decide, by decide, by decide, by decide,
        by decide, by decide,
        by with_unfolding_all decide, by with_unfolding_all decide,
        by rw [calculate_text_similarity_self _ (by decide)]; norm_num⟩⟩

end A4C
